import Mathlib

/-!
Verification development for the browser-automation task orchestration
engine (`AccountAutomationService`, `WorkerPool` in `src/server/routes.ts`).

The embedding is shallow: the service's stateful methods become explicit
state-passing functions over a `St` record (the task object plus an
observable event trace), browser/network/mailbox behaviour is supplied by
an environment record (`AttemptEnv`, `VerifyEnv`), and JavaScript
exceptions become an explicit `Res.thrown` result.  French log strings are
transliterated to plain ASCII; each emoji prefix is rendered as a short
parenthesised tag, consistently across logging sites and the debug-log
whitelist filter, so that the retry-time `debugLogs` filter behaves
exactly like the source's `log.includes(...)` tests.

JavaScript regular-expression tests (`/captcha/i` and friends) are
embedded as case-insensitive ordered-substring searches; the only
difference from the JS semantics is that a `.*` gap may span a newline
here, which none of the theorems below depends on.
-/

namespace Zowa

/-! ### String helpers (JS `String.includes` and regex literal tests) -/

/-- `leadsWith l p` is true when `p` is an initial segment of `l`. -/
def leadsWith : List Char → List Char → Bool
  | _, [] => true
  | [], _ :: _ => false
  | c :: cs, p :: ps => c = p && leadsWith cs ps

/-- `hasSub l p` is true when `p` occurs contiguously inside `l`
(JS `String.prototype.includes`). -/
def hasSub : List Char → List Char → Bool
  | [], pat => pat.isEmpty
  | l@(_ :: tl), pat => leadsWith l pat || hasSub tl pat

/-- Case-sensitive substring test, used for URL checks
(`currentUrl.includes('/signup')`). -/
def containsSub (hay pat : String) : Bool :=
  hasSub hay.toList pat.toList

/-- Lower-cased character list of a string. -/
def lowerChars (s : String) : List Char :=
  s.toList.map Char.toLower

/-- Case-insensitive substring test (a JS `/lit/i.test`). -/
def containsCI (hay pat : String) : Bool :=
  hasSub (lowerChars hay) (lowerChars pat)

/-- The remainder of `l` after the leftmost occurrence of `p`. -/
def restAfter : List Char → List Char → Option (List Char)
  | [], pat => if pat.isEmpty then some [] else none
  | l@(_ :: tl), pat =>
    if leadsWith l pat then some (l.drop pat.length) else restAfter tl pat

/-- `seqOccur l pats` is true when the literals `pats` occur in `l` in
order (a JS `/a.*b.*c/` style test). -/
def seqOccur : List Char → List (List Char) → Bool
  | _, [] => true
  | l, p :: ps =>
    match restAfter l p with
    | some rest => seqOccur rest ps
    | none => false

/-- Case-insensitive in-order multi-literal test (a JS `/a.*b/i.test`). -/
def seqOccurCI (hay : String) (pats : List String) : Bool :=
  seqOccur (lowerChars hay) (pats.map lowerChars)

/-! ### Data model (`@shared/schema` and the service's task object) -/

/-- Status of one `AutomationStep`. -/
inductive StepStatus where
  | pending | running | completed | failed
deriving Repr, DecidableEq

/-- One `AutomationStep` (id, human label, status). -/
structure Step where
  id : String
  label : String
  status : StepStatus
deriving Repr, DecidableEq

/-- Status of one `AutomationTask`. -/
inductive TaskStatus where
  | pending | running | completed | failed
deriving Repr, DecidableEq

/-- The `AutomationTask` record built in `createReplitAccount`. -/
structure Task where
  id : String
  provider : String
  email : String
  password : String
  status : TaskStatus
  steps : List Step
  logs : List String
  debugLogs : List String
  screenshots : List String
  errorMessages : List String
  createdAt : Nat
  completedAt : Option Nat
deriving Repr, DecidableEq

/-- Observable events of a run: subscriber notification, task-status
assignments, timed waits, Session Store reads/writes (the cookie files
under `COOKIES_DIR`), Account Persistence Gateway calls (the Supabase
inserts in `saveAccountToDatabase`), browser lifecycle, worker-pool
permits, and the start of a signup attempt. -/
inductive Event where
  | notify
  | statusSet (st : TaskStatus)
  | sleep (ms : Nat)
  | loadCookiesStore (taskId : String)
  | saveCookiesStore (taskId : String)
  | gatewaySave (email pw : String) (verified : Bool)
  | gatewayCookies (n : Nat)
  | browserLaunch
  | closePage
  | closeContext
  | closeBrowser
  | poolAcquire
  | poolRelease
  | attemptStart (n : Nat)
deriving Repr, DecidableEq

/-- Mutable state threaded through the service: the task object, the
event trace, the number of synchronous subscriber notifications so far,
and which browser resources are currently open. -/
structure St where
  task : Task
  events : List Event
  notifyCount : Nat
  browserOpen : Bool
  contextOpen : Bool
  pageOpen : Bool
deriving Repr, DecidableEq

/-- Result of a stateful computation: normal return or a thrown JS
exception (carrying the state at the throw point). -/
inductive Res (α : Type) where
  | ok : α → St → Res α
  | thrown : String → St → Res α

/-- The state/exception monad of the embedding. -/
def M (α : Type) : Type := St → Res α

instance : Monad M where
  pure a := fun s => .ok a s
  bind x f := fun s =>
    match x s with
    | .ok a s' => f a s'
    | .thrown m s' => .thrown m s'

/-- Throw a JS exception. -/
def M.throwErr (msg : String) : M α := fun s => .thrown msg s

/-- JS `try { x } catch (e) { h e }`. -/
def M.tryCatch (x : M α) (h : String → M α) : M α := fun s =>
  match x s with
  | .ok a s' => .ok a s'
  | .thrown m s' => h m s'

/-- Read the task object. -/
def getTask : M Task := fun s => .ok s.task s

/-- Apply a pure mutation to the task object. -/
def modifyTask (f : Task → Task) : M Unit := fun s =>
  .ok () { s with task := f s.task }

/-- Record an observable event. -/
def emit (e : Event) : M Unit := fun s =>
  .ok () { s with events := s.events ++ [e] }

/-- The state of a result, for stating trace properties uniformly over
normal and exceptional exits. -/
def resSt : Res α → St
  | .ok _ s => s
  | .thrown _ s => s

/-! ### Service configuration -/

/-- Service-level configuration: `debugMode`, whether a 2Captcha solver
is configured (`CAPTCHA_API_KEY` present), the clock (`Date.now()`), and
the behaviour of the registered subscriber callbacks: on the `n`-th
synchronous notification, `callbackThrows n = some msg` means a
subscriber callback throws `msg` out of `notifyUpdate`'s `forEach`. -/
structure Config where
  debugMode : Bool
  captchaSolverConfigured : Bool
  now : Nat
  callbackThrows : Nat → Option String

/-- A configuration whose subscriber callbacks never throw. -/
def Quiet (cfg : Config) : Prop := ∀ n, cfg.callbackThrows n = none

/-! ### Task mutators (source lines 769-801) -/

/-- `notifyUpdate` (line 776): synchronously invokes every callback
registered for the task id.  The notification itself (the `.notify`
event and the counter) happens before any callback exception
propagates. -/
def notifyUpdate (cfg : Config) : M Unit := fun s =>
  let s' : St := { s with events := s.events ++ [.notify],
                          notifyCount := s.notifyCount + 1 }
  match cfg.callbackThrows s.notifyCount with
  | some msg => .thrown msg s'
  | none => .ok () s'

/-- `addLog` (line 781): append to `logs`, then notify subscribers. -/
def addLog (cfg : Config) (log : String) : M Unit := do
  modifyTask (fun t => { t with logs := t.logs ++ [log] })
  notifyUpdate cfg

/-- `addDebugLog` (line 786): append to `debugLogs` only in debug mode;
does not notify. -/
def addDebugLog (cfg : Config) (log : String) : M Unit :=
  if cfg.debugMode then
    modifyTask (fun t => { t with debugLogs := t.debugLogs ++ [log] })
  else
    pure ()

/-- Set the status of the first step with the given id (step ids are
unique in a task, matching `task.steps.find`). -/
def setFirstStep : List Step → String → StepStatus → List Step
  | [], _, _ => []
  | st :: rest, sid, status =>
    if st.id = sid then { st with status := status } :: rest
    else st :: setFirstStep rest sid status

/-- `updateStep` (line 792): mutate the step's status in place and
optionally append a log line.  Note: it does not call `notifyUpdate`. -/
def updateStep (stepId : String) (status : StepStatus)
    (log : Option String) : M Unit :=
  modifyTask fun t =>
    let t := { t with steps := setFirstStep t.steps stepId status }
    match log with
    | some l => { t with logs := t.logs ++ [l] }
    | none => t

/-- Record a `task.status` assignment (the four literal assignment sites
in the source) together with its trace event. -/
def setStatus (st : TaskStatus) : M Unit := fun s =>
  .ok () { s with task := { s.task with status := st },
                  events := s.events ++ [.statusSet st] }

/-! ### External behaviour environments

`attemptSignup` and `verifyEmail` interact with a browser page, the
2Captcha service and the external mailbox.  These interactions are pure
inputs of one attempt, packaged in environment records.  An attempt's
branch decisions depend only on the configuration and the environment,
never on the task state. -/

/-- A mailbox message header (`emailService.getMessages`). -/
structure Msg where
  id : String
  fromAddress : String
deriving Repr, DecidableEq

/-- Message details (`emailService.getMessageDetails`); JS falsiness of
the empty string models `htmlContent || textContent || ''`. -/
structure MsgDetail where
  htmlContent : String
  textContent : String
deriving Repr, DecidableEq

/-- Environment of one `verifyEmail` phase: the mailbox contents per
poll round, message details by id, whether navigating to the
verification link throws, the cookies read from the context after
navigation, and whether the Supabase account insert errors. -/
structure VerifyEnv where
  mailbox : Nat → List Msg
  details : String → Option MsgDetail
  gotoThrows : Option String
  finalCookies : List String
  dbFail : Bool

/-- Environment of one signup attempt: page lookups and their outcomes,
the page content and URL at classification time, captcha data, and the
verification-phase environment. -/
structure AttemptEnv where
  viewportLabel : String
  emailButtonFound : Bool
  emailInputFound : Bool
  passwordInputFound : Bool
  createButtonFound : Bool
  navError : Option String
  pageContent : String
  currentUrl : String
  sitekey : Option String
  solverToken : Option String
  resubmitButtonFound : Bool
  resubmitUrl : String
  contextCookies : List String
  errorTexts : List String
  backoffRand : Nat
  verifyEnv : VerifyEnv

/-! ### Outcome classification tables (source lines 1387-1400) -/

/-- The three captcha regexes, folded to their disjunction in source
order: `/captcha token is invalid/i`, `/captcha.*expired/i`,
`/captcha/i`. -/
def captchaPatternsTest (content : String) : Bool :=
  containsCI content "captcha token is invalid" ||
  seqOccurCI content ["captcha", "expired"] ||
  containsCI content "captcha"

/-- The soft-error pattern table (`otherErrorPatterns`), each regex as
its ordered literal pieces, with the recorded message. -/
def otherErrorPatterns : List (List String × String) :=
  [ (["doing it too much"], "Trop de tentatives (rate limit)"),
    (["try again"], "Reessayer demande"),
    (["email", "already", "taken"], "Email deja utilise"),
    (["email", "exists"], "Email deja existant"),
    (["invalid", "email"], "Email invalide"),
    (["password", "short"], "Mot de passe trop court") ]

/-! ### Captcha resolver (source lines 640-716) -/

/-- `solveCaptcha` (line 640): with no configured solver return `null`;
otherwise search the sitekey, call 2Captcha (an exception in the `try`
is modelled by `solverToken = none`), and return the token. -/
def solveCaptcha (cfg : Config) (aenv : AttemptEnv) : M (Option String) := do
  if !cfg.captchaSolverConfigured then
    addDebugLog cfg "(warn) 2Captcha non configure - definir CAPTCHA_API_KEY"
    pure none
  else do
    addDebugLog cfg "(search) Recherche du sitekey reCAPTCHA..."
    match aenv.sitekey with
    | none => do
      addDebugLog cfg "(x) Sitekey reCAPTCHA introuvable"
      pure none
    | some sk => do
      addDebugLog cfg ("(key) Sitekey trouve: " ++ sk)
      addDebugLog cfg "(bot) Resolution du reCAPTCHA avec 2Captcha..."
      match aenv.solverToken with
      | none => do
        addDebugLog cfg "(x) Erreur 2Captcha: request failed"
        pure none
      | some tok => do
        addDebugLog cfg "(ok) reCAPTCHA resolu avec succes!"
        pure (some tok)

/-- `injectCaptchaSolution` (line 684): best-effort token injection; its
own `try`/`catch` means it never throws, and it only writes debug
logs. -/
def injectCaptchaSolution (cfg : Config) : M Unit := do
  addDebugLog cfg "(inject) Injection du token reCAPTCHA..."
  addDebugLog cfg "(ok) Token reCAPTCHA injecte"

/-! ### Account persistence gateway (source lines 1589-1638) -/

/-- `saveAccountToDatabase` (line 1589): insert the account row (the
gateway invocation), then the cookie rows; its `try`/`catch` converts a
database error into a log line, so it never throws. -/
def saveAccountToDatabase (cfg : Config) (dbFail : Bool)
    (cookies : List String) (verified : Bool) : M Unit := do
  addDebugLog cfg "(save) Sauvegarde en base de donnees..."
  let t ← getTask
  emit (.gatewaySave t.email t.password verified)
  if dbFail then
    addLog cfg "(warn) Erreur DB: DB Error: insert failed"
  else do
    (if cookies.length > 0 then do
      emit (.gatewayCookies cookies.length)
      addDebugLog cfg (toString cookies.length ++ " cookies sauvegardes")
     else pure ())
    addDebugLog cfg "(ok) Compte sauvegarde en base de donnees"

/-! ### Browser resource teardown -/

/-- `page.close()` (non-throwing: the source attaches `.catch(() => ...)`
or the page object is live). -/
def closePageOp : M Unit := fun s =>
  .ok () { s with events := s.events ++ [.closePage], pageOpen := false }

/-- `context.close()`. -/
def closeContextOp : M Unit := fun s =>
  .ok () { s with events := s.events ++ [.closeContext], contextOpen := false }

/-- `browser.close()`. -/
def closeBrowserOp : M Unit := fun s =>
  .ok () { s with events := s.events ++ [.closeBrowser], browserOpen := false }

/-- The `if (page) ... if (context) ... if (browser) ...` teardown used
on every failure path of `attemptSignup`. -/
def closeAllGuarded : M Unit := fun s =>
  let evs := (if s.pageOpen then [Event.closePage] else []) ++
             (if s.contextOpen then [Event.closeContext] else []) ++
             (if s.browserOpen then [Event.closeBrowser] else [])
  .ok () { s with events := s.events ++ evs,
                  pageOpen := false, contextOpen := false, browserOpen := false }

/-! ### Email verification poller (source lines 1521-1587) -/

/-- The link regex `/https:\/\/replit\.com\/verify[^\s"<>]*/`: the
literal followed by characters outside whitespace, quote and angle
brackets. -/
def linkCharOk (c : Char) : Bool :=
  !(c = ' ' || c = '\t' || c = '\n' || c = '\r' || c = '"' || c = '<' || c = '>')

/-- Extract the first verification link from a message body. -/
def extractVerifyLink (content : String) : Option String :=
  match restAfter content.toList "https://replit.com/verify".toList with
  | none => none
  | some rest =>
    some ("https://replit.com/verify" ++ String.mk (rest.takeWhile linkCharOk))

/-- The message scan of one poll round: first message from a
replit-sender whose details contain a verification link (the inner `for`
with `break`/`continue`). -/
def scanMessages (venv : VerifyEnv) : List Msg → Option String
  | [] => none
  | m :: rest =>
    if containsSub m.fromAddress "replit" then
      match venv.details m.id with
      | none => scanMessages venv rest
      | some d =>
        let content := if d.htmlContent ≠ "" then d.htmlContent
                       else if d.textContent ≠ "" then d.textContent else ""
        match extractVerifyLink content with
        | some l => some l
        | none => scanMessages venv rest
    else scanMessages venv rest

/-- The polling loop (`while (!verificationLink && attempts < maxAttempts)`,
10 polls with a 3s wait after each failed one).  `round` counts the
`getMessages` calls already made; `fuel` is `maxAttempts - attempts`. -/
def pollLoop (cfg : Config) (venv : VerifyEnv) : Nat → Nat → M (Option String)
  | _, 0 => pure none
  | round, fuel + 1 => do
    match scanMessages venv (venv.mailbox round) with
    | some l => pure (some l)
    | none => do
      addDebugLog cfg ("(wait) Attente email... (" ++ toString (10 - fuel) ++ "/10)")
      emit (.sleep 3000)
      pollLoop cfg venv (round + 1) fuel

/-- `verifyEmail` (line 1521).  On a found link: navigate, mark
`email_verify` completed, persist the account with `verified = true` and
the fresh context cookies.  On polling exhaustion: mark `email_verify`
failed and persist with `verified = false` and the cookies captured at
submission time.  Any exception lands in the `catch`, which also
persists with `verified = false`.  Every path closes context and
browser. -/
def verifyEmail (cfg : Config) (venv : VerifyEnv)
    (cookies : List String) : M Unit :=
  M.tryCatch
    (do
      updateStep "email_verify" .running none
      addDebugLog cfg "(mail) Recuperation de l email de confirmation..."
      emit (.sleep 5000)
      let link? ← pollLoop cfg venv 0 10
      match link? with
      | none => do
        updateStep "email_verify" .failed none
        addLog cfg "(x) Email de confirmation non recu"
        saveAccountToDatabase cfg venv.dbFail cookies false
        closeContextOp
        closeBrowserOp
      | some _ => do
        addDebugLog cfg "(link) Lien trouve, validation en cours..."
        (match venv.gotoThrows with
         | some m => M.throwErr m
         | none => pure ())
        emit (.sleep 3000)
        updateStep "email_verify" .completed none
        addDebugLog cfg "(ok) Email valide avec succes!"
        saveAccountToDatabase cfg venv.dbFail venv.finalCookies true
        closeContextOp
        closeBrowserOp)
    (fun errMsg => do
      updateStep "email_verify" .failed none
      addLog cfg ("(x) Erreur validation: " ++ errMsg)
      saveAccountToDatabase cfg venv.dbFail cookies false
      closeContextOp
      closeBrowserOp)

/-! ### Signup driver (`attemptSignup`, source lines 1005-1519) -/

/-- Retry cap (`MAX_RETRIES`, line 583). -/
def MAX_RETRIES : Nat := 3

/-- Worker-pool size (`MAX_WORKERS`, line 584). -/
def MAX_WORKERS : Nat := 3

/-- Open the browser process (line 1022). -/
def launchBrowserOp : M Unit := fun s =>
  .ok () { s with events := s.events ++ [.browserLaunch], browserOpen := true }

/-- Open the fingerprinted context (line 1063). -/
def openContextOp : M Unit := fun s =>
  .ok () { s with contextOpen := true }

/-- Open the page (line 1099). -/
def openPageOp : M Unit := fun s =>
  .ok () { s with pageOpen := true }

/-- `loadCookies` (line 619): a Session Store read for the task id, at
the start of every attempt; its `try`/`catch` means it never throws. -/
def loadCookiesOp : M Unit := do
  let t ← getTask
  emit (.loadCookiesStore t.id)

/-- The soft-error classification loop (lines 1456-1464): for every
matching pattern, record the message, mark `submit` failed and log;
returns whether any pattern matched. -/
def softErrorLoop (cfg : Config) (content : String) :
    List (List String × String) → M Bool
  | [] => pure false
  | (pats, msg) :: rest => do
    if seqOccurCI content pats then do
      modifyTask (fun t => { t with errorMessages := t.errorMessages ++ [msg] })
      updateStep "submit" .failed none
      addLog cfg ("(x) " ++ msg)
      let _ ← softErrorLoop cfg content rest
      pure true
    else
      softErrorLoop cfg content rest

/-- The alert scrape of the unrecognized branch (lines 1487-1496);
`errorTexts` holds the already-trimmed non-empty alert texts. -/
def scrapeErrors (cfg : Config) : List String → M Unit
  | [] => pure ()
  | txt :: rest => do
    addLog cfg ("(alert) " ++ txt)
    modifyTask (fun t => { t with errorMessages := t.errorMessages ++ [txt] })
    scrapeErrors cfg rest

/-- The `try` body of `attemptSignup`: session setup, humanized form
fill, submission, then outcome classification.  Fixed-duration waits and
pure browser gestures (scroll, mouse movement) are omitted as they touch
no observable state; selector failures throw the source's error
messages. -/
def attemptSignupTry (cfg : Config) (aenv : AttemptEnv)
    (attemptNumber : Nat) : M Bool := do
  emit (.attemptStart attemptNumber)
  (if attemptNumber > 1 then
    addDebugLog cfg ("(retry) Tentative " ++ toString attemptNumber ++ "/" ++
      toString MAX_RETRIES ++ " avec nouveau contexte propre")
   else pure ())
  updateStep "load" .running (some ("(mask) Browser: " ++ aenv.viewportLabel ++
    " (Tentative " ++ toString attemptNumber ++ ")"))
  addDebugLog cfg "(web) Configuration navigateur avec anti-detection 2025..."
  launchBrowserOp
  addDebugLog cfg "(cookie) Creation du contexte avec cookies persistants..."
  openContextOp
  loadCookiesOp
  openPageOp
  updateStep "load" .running (some "(web) Navigation vers replit.com/signup...")
  (match aenv.navError with
   | some m => M.throwErr m
   | none => pure ())
  addDebugLog cfg "(wait) Attente initiale: simulation comportement humain"
  modifyTask (fun t => { t with screenshots := t.screenshots ++ ["shot-initial"] })
  updateStep "load" .completed none
  addDebugLog cfg "(ok) Page chargee"
  updateStep "form" .running none
  (if aenv.emailButtonFound then
    addDebugLog cfg "(ok) Bouton Email et Password clique"
   else pure ())
  if !aenv.emailInputFound then
    M.throwErr "Champ email introuvable"
  else do
  let t ← getTask
  addDebugLog cfg ("(note) Email saisi: " ++ t.email)
  if !aenv.passwordInputFound then
    M.throwErr "Champ password introuvable"
  else do
  updateStep "form" .completed none
  addDebugLog cfg ("(lock) Mot de passe saisi: " ++ t.password)
  updateStep "submit" .running none
  if !aenv.createButtonFound then do
    modifyTask (fun tk => { tk with screenshots := tk.screenshots ++ ["shot-nobutton"] })
    M.throwErr "Bouton Create Account introuvable"
  else do
  addDebugLog cfg "(mouse) Bouton Create Account clique - Analyse en cours..."
  addDebugLog cfg "(wait) Attente reponse serveur: fenetre fixe plus aleatoire"
  modifyTask (fun tk => { tk with screenshots := tk.screenshots ++ ["shot-submit"] })
  -- classification (lines 1384-1504)
  let content := aenv.pageContent
  let currentUrl := aenv.currentUrl
  let captchaDetected := captchaPatternsTest content
  if captchaDetected && cfg.captchaSolverConfigured then do
    addLog cfg "(bot) reCAPTCHA detecte - tentative de resolution automatique..."
    let token? ← solveCaptcha cfg aenv
    let earlyOk ← (match token? with
      | some _ => do
        injectCaptchaSolution cfg
        if aenv.resubmitButtonFound then do
          addDebugLog cfg "(retry) Nouvelle soumission avec token 2Captcha..."
          let newUrl := aenv.resubmitUrl
          if !(containsSub newUrl "/signup") && containsSub newUrl "replit.com" then do
            updateStep "submit" .completed none
            addDebugLog cfg "(ok) Succes avec 2Captcha!"
            updateStep "redirect" .completed none
            let tk ← getTask
            emit (.saveCookiesStore tk.id)
            verifyEmail cfg aenv.verifyEnv aenv.contextCookies
            pure true
          else pure false
        else pure false
      | none => pure false)
    if earlyOk then
      pure true
    else do
      addLog cfg "(x) Echec resolution CAPTCHA - retry necessaire"
      addDebugLog cfg "(warn) Fermeture du contexte empoisonne..."
      closeAllGuarded
      pure false
  else if captchaDetected then do
    addLog cfg "(x) reCAPTCHA detecte - Configurez CAPTCHA_API_KEY pour resolution auto"
    addDebugLog cfg "(warn) Fermeture du contexte empoisonne..."
    closeAllGuarded
    pure false
  else do
    let otherErrorDetected ← softErrorLoop cfg content otherErrorPatterns
    if otherErrorDetected then do
      addDebugLog cfg "(warn) Fermeture du contexte empoisonne avant retry..."
      closeAllGuarded
      pure false
    else if !(containsSub currentUrl "/signup") && containsSub currentUrl "replit.com" then do
      updateStep "submit" .completed none
      addDebugLog cfg "(ok) Soumission reussie"
      updateStep "redirect" .completed none
      addDebugLog cfg ("(ok) Redirige vers: " ++ currentUrl)
      verifyEmail cfg aenv.verifyEnv aenv.contextCookies
      pure true
    else do
      addDebugLog cfg "(warn) Toujours sur la page signup - detection probable"
      scrapeErrors cfg aenv.errorTexts
      updateStep "submit" .failed none
      addDebugLog cfg "(warn) Nettoyage du contexte empoisonne..."
      closeAllGuarded
      pure false

/-- `attemptSignup` (line 1005): the `try` body above guarded by the
attempt-boundary `catch` (lines 1506-1518), which records the error,
marks `submit` failed, tears the session down and reports failure. -/
def attemptSignup (cfg : Config) (aenv : AttemptEnv)
    (attemptNumber : Nat) : M Bool :=
  M.tryCatch (attemptSignupTry cfg aenv attemptNumber)
    (fun errMsg => do
      modifyTask (fun t => { t with errorMessages := t.errorMessages ++ [errMsg] })
      updateStep "submit" .failed none
      addLog cfg ("(x) " ++ errMsg)
      addDebugLog cfg "(warn) Erreur - nettoyage complet du navigateur..."
      closeAllGuarded
      pure false)

/-! ### Retry controller (`runAutomation`, source lines 870-927) -/

/-- Reset of `failed` steps to `pending` at the start of a retry
(lines 888-890); `completed` and `running` steps are left untouched. -/
def resetFailedSteps (steps : List Step) : List Step :=
  steps.map fun st =>
    if st.status = .failed then { st with status := .pending } else st

/-- The debug-log whitelist of the retry reset (lines 899-906): keep a
line when it contains one of six bootstrap markers. -/
def debugKeep (log : String) : Bool :=
  containsSub log "(rocket) Demarrage" ||
  containsSub log "(mail) Email:" ||
  containsSub log "(wait) Initialisation" ||
  containsSub log "(play) Demarrage" ||
  containsSub log "(retry) Tentative" ||
  containsSub log "(wait) Pause"

/-- The `attempt > 1` prelude of the retry loop (lines 885-907): log the
retry marker, reset failed steps, wait a randomized
`Math.floor(Math.random() * 8000) + 5000` ms backoff, then clear
`errorMessages` and `screenshots` and trim `debugLogs` to the
whitelist. -/
def retryReset (cfg : Config) (aenv : AttemptEnv) (attempt : Nat) : M Unit := do
  addDebugLog cfg ("\n(retry) Tentative " ++ toString attempt ++ "/" ++
    toString MAX_RETRIES)
  modifyTask (fun t => { t with steps := resetFailedSteps t.steps })
  let delay := aenv.backoffRand % 8000 + 5000
  addDebugLog cfg ("(wait) Pause de " ++ toString (delay / 1000) ++ "s...")
  notifyUpdate cfg
  emit (.sleep delay)
  modifyTask (fun t => { t with errorMessages := [] })
  modifyTask (fun t => { t with screenshots := [] })
  modifyTask (fun t => { t with debugLogs := t.debugLogs.filter debugKeep })

/-- The `for (let attempt = 1; attempt <= MAX_RETRIES; ...)` loop body
(lines 884-918): `fuel` counts the remaining iterations.  On a
successful attempt the task is completed and the loop returns `true`;
when the fuel runs out it returns `false`. -/
def runAttempts (cfg : Config) (env : Nat → AttemptEnv) :
    Nat → Nat → M Bool
  | 0, _ => pure false
  | fuel + 1, attempt => do
    (if attempt > 1 then retryReset cfg (env attempt) attempt else pure ())
    let success ← attemptSignup cfg (env attempt) attempt
    if success then do
      setStatus .completed
      modifyTask (fun t => { t with completedAt := some cfg.now })
      notifyUpdate cfg
      pure true
    else
      runAttempts cfg env fuel (attempt + 1)

/-- `runAutomation` (line 870): mark the task running, drive up to
`MAX_RETRIES` attempts, and on exhaustion mark it failed.  The 1-second
`notifyInterval` only re-delivers notifications on wall-clock time and
mutates nothing, so it is not part of the state model. -/
def runAutomation (cfg : Config) (env : Nat → AttemptEnv) : M Unit := do
  setStatus .running
  notifyUpdate cfg
  addDebugLog cfg "(play) Demarrage de l automatisation..."
  let done ← runAttempts cfg env MAX_RETRIES 1
  if done then
    pure ()
  else do
    setStatus .failed
    modifyTask (fun t => { t with completedAt := some cfg.now })
    addDebugLog cfg ("(x) Echec definitif apres " ++ toString MAX_RETRIES ++
      " tentatives")
    notifyUpdate cfg

/-! ### Task creation (`createReplitAccount`, source lines 803-840) -/

/-- The five steps of a replit task, in creation order (lines 811-817). -/
def initialSteps : List Step :=
  [ { id := "load", label := "Chargement de la page", status := .pending },
    { id := "form", label := "Saisie email et mot de passe", status := .pending },
    { id := "submit", label := "Creation du compte", status := .pending },
    { id := "redirect", label := "Redirection reussie", status := .pending },
    { id := "email_verify", label := "Validation de l email", status := .pending } ]

/-- The task object built by `createReplitAccount` (lines 805-823); note
`password: email`. -/
def createReplitAccountTask (taskId email : String) (now : Nat) : Task :=
  { id := taskId, provider := "replit", email := email, password := email,
    status := .pending, steps := initialSteps, logs := [], debugLogs := [],
    screenshots := [], errorMessages := [], createdAt := now,
    completedAt := none }

/-- Initial run state for a freshly created task. -/
def initSt (taskId email : String) (now : Nat) : St :=
  { task := createReplitAccountTask taskId email now, events := [],
    notifyCount := 0, browserOpen := false, contextOpen := false,
    pageOpen := false }

/-- The three bootstrap debug logs of `createReplitAccount`
(lines 827-829). -/
def createStartLogs (cfg : Config) : M Unit := do
  addDebugLog cfg "(rocket) Demarrage de l automatisation Replit"
  let t ← getTask
  addDebugLog cfg ("(mail) Email: " ++ t.email)
  addDebugLog cfg "(wait) Initialisation..."

/-- The `.catch` handler attached to `runAutomation(taskId)` in
`createReplitAccount` (lines 831-837): unconditionally mark the task
failed, record the fatal error, stamp `completedAt` and notify. -/
def fatalHandler (cfg : Config) (msg : String) : M Unit := do
  setStatus .failed
  modifyTask (fun t => { t with
    errorMessages := t.errorMessages ++ ["Erreur fatale: " ++ msg],
    completedAt := some cfg.now })
  notifyUpdate cfg

/-- The whole lifetime of a task created through `createReplitAccount`:
build the task, write the bootstrap logs, run the automation, and route
any escaping exception into the fatal handler (whose own exceptions end
as unhandled rejections, leaving the state as is).  Note that no
worker-pool permit is involved on this path: only
`createMultipleAccounts` wraps work in `workerPool.execute`. -/
def createReplitAccountRun (cfg : Config) (env : Nat → AttemptEnv)
    (taskId email : String) : St :=
  match (do createStartLogs cfg; runAutomation cfg env)
      (initSt taskId email cfg.now) with
  | .ok _ s => s
  | .thrown msg s => resSt (fatalHandler cfg msg s)

/-! ### Worker pool (source lines 544-577)

`WorkerPool.execute` spins on `activeWorkers >= maxWorkers` with 1-second
sleeps; in the single-threaded JS event loop the final (passing) test and
the `activeWorkers++` happen with no interleaving point between them, so
acquisition is an atomic guarded test-and-increment, and the `finally`
decrements.  The pool is therefore a transition system on the permit
counter. -/

/-- The worker-pool permit counter. -/
structure PoolState where
  active : Nat
deriving Repr, DecidableEq

/-- One scheduler step of the pool: an `execute` call passes the guard
and takes a permit, or a running call finishes and releases one. -/
inductive PoolStep (maxWorkers : Nat) : PoolState → PoolState → Prop
  | acquire {s : PoolState} (h : s.active < maxWorkers) :
      PoolStep maxWorkers s ⟨s.active + 1⟩
  | release {s : PoolState} (h : 0 < s.active) :
      PoolStep maxWorkers s ⟨s.active - 1⟩

/-- Reachability of pool states. -/
def poolReach (maxWorkers : Nat) : PoolState → PoolState → Prop :=
  Relation.ReflTransGen (PoolStep maxWorkers)

/-- The trace shape of `workerPool.execute(fn)` as used by
`createMultipleAccounts` (line 847): acquire a permit, run the function,
release the permit in the `finally`. -/
def workerPoolExecute (fn : M α) : M α := do
  emit .poolAcquire
  M.tryCatch
    (do
      let a ← fn
      emit .poolRelease
      pure a)
    (fun msg => do
      emit .poolRelease
      M.throwErr msg)

/-! ### Concrete configurations and environments for the scenarios -/

/-- Debug-mode configuration, no captcha solver, no throwing
subscriber callback. -/
def quietCfg : Config :=
  { debugMode := true, captchaSolverConfigured := false, now := 1000,
    callbackThrows := fun _ => none }

/-- Same service configuration with a 2Captcha solver configured. -/
def solverCfg : Config :=
  { quietCfg with captchaSolverConfigured := true }

/-- A configuration with a subscriber callback that throws on the `n`-th
synchronous notification. -/
def throwingCfg (n : Nat) : Config :=
  { quietCfg with callbackThrows := fun k =>
      if k = n then some "subscriber callback error" else none }

/-- A mailbox that never yields any message. -/
def neverMailVerifyEnv : VerifyEnv :=
  { mailbox := fun _ => [], details := fun _ => none, gotoThrows := none,
    finalCookies := [], dbFail := false }

/-- A mailbox that yields a verification message on the first poll. -/
def goodVerifyEnv : VerifyEnv :=
  { mailbox := fun _ => [{ id := "m1", fromAddress := "noreply@replit.com" }],
    details := fun mid =>
      if mid = "m1" then
        some { htmlContent := "click https://replit.com/verify/abc now",
               textContent := "" }
      else none,
    gotoThrows := none, finalCookies := ["sid-final"], dbFail := false }

/-- An attempt whose submission lands on a soft-error page
(rate-limit style "try again" text, still on the signup URL). -/
def softFailEnv : AttemptEnv :=
  { viewportLabel := "1920x1080", emailButtonFound := true,
    emailInputFound := true, passwordInputFound := true,
    createButtonFound := true, navError := none,
    pageContent := "Whoa there, please try again later",
    currentUrl := "https://replit.com/signup",
    sitekey := none, solverToken := none, resubmitButtonFound := false,
    resubmitUrl := "", contextCookies := [], errorTexts := [],
    backoffRand := 4000, verifyEnv := neverMailVerifyEnv }

/-- An attempt whose submission redirects off the signup path and whose
verification mail arrives on the first poll. -/
def successEnv : AttemptEnv :=
  { softFailEnv with
    pageContent := "Welcome to your new workspace"
    currentUrl := "https://replit.com/~"
    contextCookies := ["sid-signup"]
    verifyEnv := goodVerifyEnv }

/-- An attempt whose submission redirects off the signup path but whose
verification mail never arrives. -/
def redirectNoMailEnv : AttemptEnv :=
  { successEnv with verifyEnv := neverMailVerifyEnv }

/-- An attempt that hits a CAPTCHA page. -/
def captchaEnv : AttemptEnv :=
  { softFailEnv with pageContent := "please solve this CAPTCHA to continue" }

/-- A CAPTCHA attempt that a configured solver resolves, with a
successful resubmission redirect. -/
def captchaSolvedEnv : AttemptEnv :=
  { captchaEnv with
    sitekey := some "sk-1"
    solverToken := some "tok-1"
    resubmitButtonFound := true
    resubmitUrl := "https://replit.com/~"
    contextCookies := ["sid-signup"]
    verifyEnv := goodVerifyEnv }

/-! ### Trace inspection helpers -/

/-- The task-status assignments recorded in a trace, in order. -/
def statusOf : Event → Option TaskStatus
  | .statusSet st => some st
  | _ => none

/-- The sequence of `task.status` assignments of a trace. -/
def statusSets (evs : List Event) : List TaskStatus :=
  evs.filterMap statusOf

/-- Gateway account-insert events. -/
def isGatewaySave : Event → Bool
  | .gatewaySave _ _ _ => true
  | _ => false

/-- Session Store writes. -/
def isSaveCookiesStore : Event → Bool
  | .saveCookiesStore _ => true
  | _ => false

/-- Session Store reads. -/
def isLoadCookiesStore : Event → Bool
  | .loadCookiesStore _ => true
  | _ => false

/-- Attempt starts. -/
def isAttemptStart : Event → Bool
  | .attemptStart _ => true
  | _ => false

/-- Worker-pool permit acquisitions. -/
def isPoolAcquire : Event → Bool
  | .poolAcquire => true
  | _ => false

/-- Browser launches. -/
def isBrowserLaunch : Event → Bool
  | .browserLaunch => true
  | _ => false

/-- Synchronous subscriber notifications. -/
def isNotify : Event → Bool
  | .notify => true
  | _ => false

/-- Page closes. -/
def isClosePage : Event → Bool
  | .closePage => true
  | _ => false

/-- Context closes. -/
def isCloseContext : Event → Bool
  | .closeContext => true
  | _ => false

/-- Browser closes. -/
def isCloseBrowser : Event → Bool
  | .closeBrowser => true
  | _ => false

/-- The status of the step with the given id. -/
def getStepStatus (steps : List Step) (sid : String) : Option StepStatus :=
  (steps.find? (fun st => st.id == sid)).map Step.status


/-! ### Application lemmas: closed forms of the primitive operations,
used to run the embedded code symbolically inside `simp`. -/

theorem bind_app (x : M α) (f : α → M β) (s : St) :
    (x >>= f) s = match x s with
      | .ok a s1 => f a s1
      | .thrown m s1 => .thrown m s1 := rfl

theorem pure_app (a : α) (s : St) : (pure a : M α) s = .ok a s := rfl

theorem tryCatch_app (x : M α) (h : String → M α) (s : St) :
    M.tryCatch x h s = match x s with
      | .ok a s1 => .ok a s1
      | .thrown m s1 => h m s1 := rfl

theorem throwErr_app (msg : String) (s : St) :
    (M.throwErr msg : M α) s = .thrown msg s := rfl

theorem getTask_app (s : St) : getTask s = .ok s.task s := rfl

theorem modifyTask_app (f : Task → Task) (s : St) :
    modifyTask f s = .ok () { s with task := f s.task } := rfl

theorem emit_app (e : Event) (s : St) :
    emit e s = .ok () { s with events := s.events ++ [e] } := rfl

theorem notifyUpdate_app (cfg : Config) (s : St) :
    notifyUpdate cfg s =
      match cfg.callbackThrows s.notifyCount with
      | some msg => .thrown msg
          { s with
            events := s.events ++ [.notify]
            notifyCount := s.notifyCount + 1 }
      | none => .ok ()
          { s with
            events := s.events ++ [.notify]
            notifyCount := s.notifyCount + 1 } := rfl

theorem setStatus_app (st : TaskStatus) (s : St) :
    setStatus st s = .ok ()
      { s with
        task := { s.task with status := st }
        events := s.events ++ [.statusSet st] } := rfl

theorem closePageOp_app (s : St) : closePageOp s =
    .ok () { s with events := s.events ++ [.closePage], pageOpen := false } := rfl

theorem closeContextOp_app (s : St) : closeContextOp s =
    .ok () { s with events := s.events ++ [.closeContext], contextOpen := false } := rfl

theorem closeBrowserOp_app (s : St) : closeBrowserOp s =
    .ok () { s with events := s.events ++ [.closeBrowser], browserOpen := false } := rfl

theorem closeAllGuarded_app (s : St) : closeAllGuarded s =
    .ok ()
      { s with
        events := s.events ++
          ((if s.pageOpen then [Event.closePage] else []) ++
           (if s.contextOpen then [Event.closeContext] else []) ++
           (if s.browserOpen then [Event.closeBrowser] else []))
        pageOpen := false
        contextOpen := false
        browserOpen := false } := rfl

theorem launchBrowserOp_app (s : St) : launchBrowserOp s =
    .ok () { s with events := s.events ++ [.browserLaunch], browserOpen := true } := rfl

theorem openContextOp_app (s : St) : openContextOp s =
    .ok () { s with contextOpen := true } := rfl

theorem openPageOp_app (s : St) : openPageOp s =
    .ok () { s with pageOpen := true } := rfl

/-! ### Run-state projection and generic facts

`runSt m s` is the state in which `m` leaves the system when started in
`s`, whether it returns or throws.  `NT m` says `m` never throws; `PS m`
says `m` never records a task-status assignment (the sequence of
`statusSet` events is unchanged). -/

/-- The final state of running `m` from `s`. -/
def runSt (m : M α) (s : St) : St := resSt (m s)

/-- `m` never throws. -/
def NT (m : M α) : Prop := ∀ s, ∃ a s', m s = .ok a s'

/-- `m` records no task-status assignment. -/
def PS (m : M α) : Prop :=
  ∀ s, statusSets (runSt m s).events = statusSets s.events

theorem statusSets_append (l1 l2 : List Event) :
    statusSets (l1 ++ l2) = statusSets l1 ++ statusSets l2 :=
  List.filterMap_append l1 l2 statusOf

theorem ps_pure (a : α) : PS (pure a : M α) := fun _ => rfl

theorem ps_bind {m : M α} {f : α → M β} (hm : PS m)
    (hf : ∀ a, PS (f a)) : PS (m >>= f) := by
  intro s
  have hms := hm s
  unfold runSt resSt at *
  rcases h : m s with ⟨a, s1⟩ | ⟨msg, s1⟩
  · have := hf a s1
    unfold runSt resSt at this
    simp only [bind_app, h]
    rw [h] at hms
    simp only at hms
    exact this.trans hms
  · simp only [bind_app, h]
    rw [h] at hms
    exact hms

theorem ps_tryCatch {x : M α} {h : String → M α} (hx : PS x)
    (hh : ∀ e, PS (h e)) : PS (M.tryCatch x h) := by
  intro s
  have hxs := hx s
  unfold runSt resSt at *
  rcases he : x s with ⟨a, s1⟩ | ⟨msg, s1⟩
  · simp only [tryCatch_app, he]
    rw [he] at hxs
    exact hxs
  · have := hh msg s1
    unfold runSt resSt at this
    simp only [tryCatch_app, he]
    rw [he] at hxs
    simp only at hxs
    exact this.trans hxs

theorem ps_ite {c : Prop} {inst : Decidable c} {m1 m2 : M α}
    (h1 : PS m1) (h2 : PS m2) : PS (@ite _ c inst m1 m2) := by
  by_cases hc : c
  · simpa [hc] using h1
  · simpa [hc] using h2

theorem ps_emit (e : Event) (he : statusOf e = none) : PS (emit e) := by
  intro s
  simp [runSt, resSt, emit, statusSets, List.filterMap_append, he]

theorem ps_modifyTask (f : Task → Task) : PS (modifyTask f) := fun _ => rfl

theorem ps_getTask : PS getTask := fun _ => rfl

theorem ps_throwErr (msg : String) : PS (M.throwErr msg : M α) := fun _ => rfl

theorem ps_notifyUpdate (cfg : Config) : PS (notifyUpdate cfg) := by
  intro s
  unfold runSt resSt notifyUpdate
  rcases cfg.callbackThrows s.notifyCount with _ | msg <;>
    simp [statusSets, List.filterMap_append, statusOf]

theorem ps_addLog (cfg : Config) (log : String) : PS (addLog cfg log) :=
  ps_bind (ps_modifyTask _) (fun _ => ps_notifyUpdate cfg)

theorem ps_addDebugLog (cfg : Config) (log : String) : PS (addDebugLog cfg log) :=
  ps_ite (ps_modifyTask _) (ps_pure ())

theorem ps_updateStep (sid : String) (stv : StepStatus) (log : Option String) :
    PS (updateStep sid stv log) := ps_modifyTask _

theorem ps_closePageOp : PS closePageOp := by
  intro s
  simp [runSt, resSt, closePageOp, statusSets, List.filterMap_append, statusOf]

theorem ps_closeContextOp : PS closeContextOp := by
  intro s
  simp [runSt, resSt, closeContextOp, statusSets, List.filterMap_append, statusOf]

theorem ps_closeBrowserOp : PS closeBrowserOp := by
  intro s
  simp [runSt, resSt, closeBrowserOp, statusSets, List.filterMap_append, statusOf]

theorem ps_closeAllGuarded : PS closeAllGuarded := by
  intro s
  unfold runSt resSt closeAllGuarded
  simp only [statusSets, List.filterMap_append]
  rcases s.pageOpen <;> rcases s.contextOpen <;> rcases s.browserOpen <;>
    simp [statusOf]

theorem ps_launchBrowserOp : PS launchBrowserOp := by
  intro s
  simp [runSt, resSt, launchBrowserOp, statusSets, List.filterMap_append, statusOf]

theorem ps_openContextOp : PS openContextOp := fun _ => rfl

theorem ps_openPageOp : PS openPageOp := fun _ => rfl

theorem ps_loadCookiesOp : PS loadCookiesOp :=
  ps_bind ps_getTask (fun _ => ps_emit _ rfl)

theorem ps_solveCaptcha (cfg : Config) (aenv : AttemptEnv) :
    PS (solveCaptcha cfg aenv) := by
  unfold solveCaptcha
  refine ps_ite ?_ ?_
  · exact ps_bind (ps_addDebugLog _ _) (fun _ => ps_pure _)
  · refine ps_bind (ps_addDebugLog _ _) (fun _ => ?_)
    rcases aenv.sitekey with _ | sk
    · exact ps_bind (ps_addDebugLog _ _) (fun _ => ps_pure _)
    · refine ps_bind (ps_addDebugLog _ _) (fun _ =>
        ps_bind (ps_addDebugLog _ _) (fun _ => ?_))
      rcases aenv.solverToken with _ | tok
      · exact ps_bind (ps_addDebugLog _ _) (fun _ => ps_pure _)
      · exact ps_bind (ps_addDebugLog _ _) (fun _ => ps_pure _)

theorem ps_injectCaptchaSolution (cfg : Config) :
    PS (injectCaptchaSolution cfg) :=
  ps_bind (ps_addDebugLog _ _) (fun _ => ps_addDebugLog _ _)

theorem ps_saveAccountToDatabase (cfg : Config) (dbFail : Bool)
    (cookies : List String) (verified : Bool) :
    PS (saveAccountToDatabase cfg dbFail cookies verified) := by
  unfold saveAccountToDatabase
  refine ps_bind (ps_addDebugLog _ _) (fun _ =>
    ps_bind ps_getTask (fun _ => ps_bind (ps_emit _ rfl) (fun _ => ?_)))
  refine ps_ite (ps_addLog _ _) ?_
  refine ps_bind (ps_ite ?_ (ps_pure _)) (fun _ => ps_addDebugLog _ _)
  exact ps_bind (ps_emit _ rfl) (fun _ => ps_addDebugLog _ _)

theorem ps_scrapeErrors (cfg : Config) (l : List String) :
    PS (scrapeErrors cfg l) := by
  induction l with
  | nil => exact ps_pure ()
  | cons txt rest ih =>
    exact ps_bind (ps_addLog _ _) (fun _ =>
      ps_bind (ps_modifyTask _) (fun _ => ih))

theorem ps_softErrorLoop (cfg : Config) (content : String)
    (l : List (List String × String)) :
    PS (softErrorLoop cfg content l) := by
  induction l with
  | nil => exact ps_pure false
  | cons p rest ih =>
    rcases p with ⟨pats, msg⟩
    unfold softErrorLoop
    refine ps_ite ?_ ih
    exact ps_bind (ps_modifyTask _) (fun _ =>
      ps_bind (ps_updateStep _ _ _) (fun _ =>
        ps_bind (ps_addLog _ _) (fun _ =>
          ps_bind ih (fun _ => ps_pure true))))

theorem ps_pollLoop (cfg : Config) (venv : VerifyEnv) :
    ∀ fuel round, PS (pollLoop cfg venv round fuel) := by
  intro fuel
  induction fuel with
  | zero => exact fun _ => ps_pure none
  | succ f ih =>
    intro round
    unfold pollLoop
    rcases scanMessages venv (venv.mailbox round) with _ | l
    · exact ps_bind (ps_addDebugLog _ _) (fun _ =>
        ps_bind (ps_emit _ rfl) (fun _ => ih (round + 1)))
    · exact ps_pure _

theorem ps_verifyEmail (cfg : Config) (venv : VerifyEnv)
    (cookies : List String) : PS (verifyEmail cfg venv cookies) := by
  unfold verifyEmail
  refine ps_tryCatch ?_ ?_
  · refine ps_bind (ps_updateStep _ _ _) (fun _ =>
      ps_bind (ps_addDebugLog _ _) (fun _ =>
        ps_bind (ps_emit _ rfl) (fun _ =>
          ps_bind (ps_pollLoop _ _ _ _) (fun link? => ?_))))
    rcases link? with _ | l
    · exact ps_bind (ps_updateStep _ _ _) (fun _ =>
        ps_bind (ps_addLog _ _) (fun _ =>
          ps_bind (ps_saveAccountToDatabase _ _ _ _) (fun _ =>
            ps_bind ps_closeContextOp (fun _ => ps_closeBrowserOp))))
    · refine ps_bind (ps_addDebugLog _ _) (fun _ => ?_)
      refine ps_bind ?_ (fun _ =>
        ps_bind (ps_emit _ rfl) (fun _ =>
          ps_bind (ps_updateStep _ _ _) (fun _ =>
            ps_bind (ps_addDebugLog _ _) (fun _ =>
              ps_bind (ps_saveAccountToDatabase _ _ _ _) (fun _ =>
                ps_bind ps_closeContextOp (fun _ => ps_closeBrowserOp))))))
      rcases venv.gotoThrows with _ | m
      · exact ps_pure ()
      · exact ps_throwErr m
  · intro e
    exact ps_bind (ps_updateStep _ _ _) (fun _ =>
      ps_bind (ps_addLog _ _) (fun _ =>
        ps_bind (ps_saveAccountToDatabase _ _ _ _) (fun _ =>
          ps_bind ps_closeContextOp (fun _ => ps_closeBrowserOp))))

theorem ps_attemptSignupTry (cfg : Config) (aenv : AttemptEnv) (n : Nat) :
    PS (attemptSignupTry cfg aenv n) := by
  unfold attemptSignupTry
  refine ps_bind (ps_emit _ rfl) (fun _ =>
    ps_bind (ps_ite (ps_addDebugLog _ _) (ps_pure _)) (fun _ =>
      ps_bind (ps_updateStep _ _ _) (fun _ =>
        ps_bind (ps_addDebugLog _ _) (fun _ =>
          ps_bind ps_launchBrowserOp (fun _ =>
            ps_bind (ps_addDebugLog _ _) (fun _ =>
              ps_bind ps_openContextOp (fun _ =>
                ps_bind ps_loadCookiesOp (fun _ =>
                  ps_bind ps_openPageOp (fun _ =>
                    ps_bind (ps_updateStep _ _ _) (fun _ => ?_))))))))))
  refine ps_bind ?_ (fun _ =>
    ps_bind (ps_addDebugLog _ _) (fun _ =>
      ps_bind (ps_modifyTask _) (fun _ =>
        ps_bind (ps_updateStep _ _ _) (fun _ =>
          ps_bind (ps_addDebugLog _ _) (fun _ =>
            ps_bind (ps_updateStep _ _ _) (fun _ =>
              ps_bind (ps_ite (ps_addDebugLog _ _) (ps_pure _)) (fun _ => ?_)))))))
  · rcases aenv.navError with _ | m
    · exact ps_pure ()
    · exact ps_throwErr m
  refine ps_ite (ps_throwErr _) ?_
  refine ps_bind ps_getTask (fun t =>
    ps_bind (ps_addDebugLog _ _) (fun _ => ?_))
  refine ps_ite (ps_throwErr _) ?_
  refine ps_bind (ps_updateStep _ _ _) (fun _ =>
    ps_bind (ps_addDebugLog _ _) (fun _ =>
      ps_bind (ps_updateStep _ _ _) (fun _ => ?_)))
  refine ps_ite
    (ps_bind (ps_modifyTask _) (fun _ => ps_throwErr _)) ?_
  refine ps_bind (ps_addDebugLog _ _) (fun _ =>
    ps_bind (ps_addDebugLog _ _) (fun _ =>
      ps_bind (ps_modifyTask _) (fun _ => ?_)))
  refine ps_ite ?_ ?_
  · -- captcha with solver
    refine ps_bind (ps_addLog _ _) (fun _ =>
      ps_bind (ps_solveCaptcha _ _) (fun token? =>
        ps_bind ?_ (fun earlyOk => ?_)))
    · rcases token? with _ | tok
      · exact ps_pure false
      · refine ps_bind (ps_injectCaptchaSolution _) (fun _ => ?_)
        refine ps_ite ?_ (ps_pure false)
        refine ps_bind (ps_addDebugLog _ _) (fun _ => ?_)
        refine ps_ite ?_ (ps_pure false)
        exact ps_bind (ps_updateStep _ _ _) (fun _ =>
          ps_bind (ps_addDebugLog _ _) (fun _ =>
            ps_bind (ps_updateStep _ _ _) (fun _ =>
              ps_bind ps_getTask (fun _ =>
                ps_bind (ps_emit _ rfl) (fun _ =>
                  ps_bind (ps_verifyEmail _ _ _) (fun _ => ps_pure true))))))
    · refine ps_ite (ps_pure true) ?_
      exact ps_bind (ps_addLog _ _) (fun _ =>
        ps_bind (ps_addDebugLog _ _) (fun _ =>
          ps_bind ps_closeAllGuarded (fun _ => ps_pure false)))
  refine ps_ite ?_ ?_
  · -- captcha without solver
    exact ps_bind (ps_addLog _ _) (fun _ =>
      ps_bind (ps_addDebugLog _ _) (fun _ =>
        ps_bind ps_closeAllGuarded (fun _ => ps_pure false)))
  refine ps_bind (ps_softErrorLoop _ _ _) (fun otherErrorDetected => ?_)
  refine ps_ite ?_ ?_
  · exact ps_bind (ps_addDebugLog _ _) (fun _ =>
      ps_bind ps_closeAllGuarded (fun _ => ps_pure false))
  refine ps_ite ?_ ?_
  · exact ps_bind (ps_updateStep _ _ _) (fun _ =>
      ps_bind (ps_addDebugLog _ _) (fun _ =>
        ps_bind (ps_updateStep _ _ _) (fun _ =>
          ps_bind (ps_addDebugLog _ _) (fun _ =>
            ps_bind (ps_verifyEmail _ _ _) (fun _ => ps_pure true)))))
  · exact ps_bind (ps_addDebugLog _ _) (fun _ =>
      ps_bind (ps_scrapeErrors _ _) (fun _ =>
        ps_bind (ps_updateStep _ _ _) (fun _ =>
          ps_bind (ps_addDebugLog _ _) (fun _ =>
            ps_bind ps_closeAllGuarded (fun _ => ps_pure false)))))

theorem ps_attemptSignup (cfg : Config) (aenv : AttemptEnv) (n : Nat) :
    PS (attemptSignup cfg aenv n) := by
  unfold attemptSignup
  refine ps_tryCatch (ps_attemptSignupTry _ _ _) (fun e => ?_)
  exact ps_bind (ps_modifyTask _) (fun _ =>
    ps_bind (ps_updateStep _ _ _) (fun _ =>
      ps_bind (ps_addLog _ _) (fun _ =>
        ps_bind (ps_addDebugLog _ _) (fun _ =>
          ps_bind ps_closeAllGuarded (fun _ => ps_pure false)))))

/-! ### Never-throws lemmas (under quiet subscriber callbacks) -/

theorem nt_pure (a : α) : NT (pure a : M α) := fun s => ⟨a, s, rfl⟩

theorem nt_bind {m : M α} {f : α → M β} (hm : NT m)
    (hf : ∀ a, NT (f a)) : NT (m >>= f) := by
  intro s
  obtain ⟨a, s1, h1⟩ := hm s
  obtain ⟨b, s2, h2⟩ := hf a s1
  exact ⟨b, s2, by rw [bind_app, h1]; exact h2⟩

theorem nt_tryCatch {x : M α} {h : String → M α}
    (hh : ∀ e, NT (h e)) : NT (M.tryCatch x h) := by
  intro s
  rcases hx : x s with ⟨a, s1⟩ | ⟨m, s1⟩
  · exact ⟨a, s1, by rw [tryCatch_app, hx]⟩
  · obtain ⟨a, s2, h2⟩ := hh m s1
    exact ⟨a, s2, by rw [tryCatch_app, hx]; exact h2⟩

theorem nt_ite {c : Prop} {inst : Decidable c} {m1 m2 : M α}
    (h1 : NT m1) (h2 : NT m2) : NT (@ite _ c inst m1 m2) := by
  by_cases hc : c
  · simpa [hc] using h1
  · simpa [hc] using h2

theorem nt_emit (e : Event) : NT (emit e) := fun s => ⟨(), _, rfl⟩

theorem nt_modifyTask (f : Task → Task) : NT (modifyTask f) :=
  fun s => ⟨(), _, rfl⟩

theorem nt_getTask : NT getTask := fun s => ⟨s.task, s, rfl⟩

theorem nt_setStatus (st : TaskStatus) : NT (setStatus st) :=
  fun s => ⟨(), _, rfl⟩

theorem nt_notifyUpdate {cfg : Config} (hq : Quiet cfg) :
    NT (notifyUpdate cfg) := by
  intro s
  exact ⟨(), _, by unfold notifyUpdate; rw [hq s.notifyCount]⟩

theorem nt_addLog {cfg : Config} (hq : Quiet cfg) (log : String) :
    NT (addLog cfg log) :=
  nt_bind (nt_modifyTask _) (fun _ => nt_notifyUpdate hq)

theorem nt_addDebugLog (cfg : Config) (log : String) :
    NT (addDebugLog cfg log) :=
  nt_ite (nt_modifyTask _) (nt_pure ())

theorem nt_updateStep (sid : String) (stv : StepStatus) (log : Option String) :
    NT (updateStep sid stv log) := nt_modifyTask _

theorem nt_closeAllGuarded : NT closeAllGuarded := fun s => ⟨(), _, rfl⟩

theorem nt_loadCookiesOp : NT loadCookiesOp :=
  nt_bind nt_getTask (fun _ => nt_emit _)

theorem nt_retryReset {cfg : Config} (hq : Quiet cfg) (aenv : AttemptEnv)
    (attempt : Nat) : NT (retryReset cfg aenv attempt) := by
  unfold retryReset
  exact nt_bind (nt_addDebugLog _ _) (fun _ =>
    nt_bind (nt_modifyTask _) (fun _ =>
      nt_bind (nt_addDebugLog _ _) (fun _ =>
        nt_bind (nt_notifyUpdate hq) (fun _ =>
          nt_bind (nt_emit _) (fun _ =>
            nt_bind (nt_modifyTask _) (fun _ =>
              nt_bind (nt_modifyTask _) (fun _ => nt_modifyTask _)))))))

theorem nt_attemptSignup {cfg : Config} (hq : Quiet cfg)
    (aenv : AttemptEnv) (n : Nat) : NT (attemptSignup cfg aenv n) := by
  unfold attemptSignup
  refine nt_tryCatch (fun e => ?_)
  exact nt_bind (nt_modifyTask _) (fun _ =>
    nt_bind (nt_updateStep _ _ _) (fun _ =>
      nt_bind (nt_addLog hq _) (fun _ =>
        nt_bind (nt_addDebugLog _ _) (fun _ =>
          nt_bind nt_closeAllGuarded (fun _ => nt_pure false)))))

theorem nt_createStartLogs (cfg : Config) : NT (createStartLogs cfg) := by
  unfold createStartLogs
  exact nt_bind (nt_addDebugLog _ _) (fun _ =>
    nt_bind nt_getTask (fun _ =>
      nt_bind (nt_addDebugLog _ _) (fun _ => nt_addDebugLog _ _)))

/-- Combine never-throws with status preservation at a given state. -/
theorem nt_ps_step {m : M α} (hnt : NT m) (hps : PS m) (s : St) :
    ∃ a s', m s = .ok a s' ∧ statusSets s'.events = statusSets s.events := by
  obtain ⟨a, s', h⟩ := hnt s
  refine ⟨a, s', h, ?_⟩
  have hp := hps s
  unfold runSt at hp
  rw [h] at hp
  exact hp

/-! ### Retry controller status trace (for the monotonicity claim) -/

/-- Rewrite one sequenced step whose outcome is known. -/
theorem step_bind {m : M α} {f : α → M β} {s s1 : St} {a : α}
    (h : m s = .ok a s1) : (m >>= f) s = f a s1 := by
  rw [bind_app, h]

/-- One `task.status` assignment: equation and status-trace delta. -/
theorem setStatus_step (st : TaskStatus) (s : St) :
    ∃ s', setStatus st s = .ok () s' ∧
      statusSets s'.events = statusSets s.events ++ [st] ∧
      s'.task.status = st ∧ s'.task.completedAt = s.task.completedAt := by
  refine ⟨_, rfl, ?_, rfl, rfl⟩
  simp [statusSets, List.filterMap_append, statusOf]

/-- Status preservation of the retry-reset prelude. -/
theorem ps_retryReset (cfg : Config) (aenv : AttemptEnv) (attempt : Nat) :
    PS (retryReset cfg aenv attempt) := by
  unfold retryReset
  exact ps_bind (ps_addDebugLog _ _) (fun _ =>
    ps_bind (ps_modifyTask _) (fun _ =>
      ps_bind (ps_addDebugLog _ _) (fun _ =>
        ps_bind (ps_notifyUpdate _) (fun _ =>
          ps_bind (ps_emit _ rfl) (fun _ =>
            ps_bind (ps_modifyTask _) (fun _ =>
              ps_bind (ps_modifyTask _) (fun _ => ps_modifyTask _)))))))

/-- Under quiet callbacks, the retry loop returns normally and appends
exactly one `completed` status assignment when it reports success, and
none when it reports failure. -/
theorem runAttempts_statusSets {cfg : Config} (hq : Quiet cfg)
    (env : Nat → AttemptEnv) :
    ∀ fuel attempt s, ∃ b s',
      runAttempts cfg env fuel attempt s = .ok b s' ∧
      statusSets s'.events =
        statusSets s.events ++ (if b then [TaskStatus.completed] else []) := by
  intro fuel
  induction fuel with
  | zero =>
    intro attempt s
    exact ⟨false, s, rfl, by simp⟩
  | succ f ih =>
    intro attempt s
    obtain ⟨u1, s1, h1, hp1⟩ := nt_ps_step
      (nt_ite (nt_retryReset hq (env attempt) attempt) (nt_pure ()))
      (ps_ite (ps_retryReset cfg (env attempt) attempt) (ps_pure ())) s
    obtain ⟨b2, s2, h2, hp2⟩ := nt_ps_step
      (nt_attemptSignup hq (env attempt) attempt)
      (ps_attemptSignup cfg (env attempt) attempt) s1
    rcases b2 with _ | _
    · -- failed attempt: recurse
      obtain ⟨b3, s3, h3, hp3⟩ := ih (attempt + 1) s2
      refine ⟨b3, s3, ?_, ?_⟩
      · unfold runAttempts
        rw [step_bind h1, step_bind h2]
        simpa using h3
      · rw [hp3, hp2, hp1]
    · -- successful attempt: complete the task
      obtain ⟨s3, e3, hp3, _, _⟩ := setStatus_step .completed s2
      obtain ⟨u4, s4, e4, hp4⟩ := nt_ps_step (nt_modifyTask _) (ps_modifyTask _) s3
      obtain ⟨u5, s5, e5, hp5⟩ :=
        nt_ps_step (nt_notifyUpdate hq) (ps_notifyUpdate _) s4
      refine ⟨true, s5, ?_, ?_⟩
      · unfold runAttempts
        rw [step_bind h1, step_bind h2]
        simp only [eq_self_iff_true, if_true, ite_true]
        rw [step_bind e3, step_bind e4, step_bind e5, pure_app]
      · rw [hp5, hp4, hp3, hp2, hp1]
        simp

/-- Under quiet callbacks, `runAutomation` returns normally and its
status-assignment trace is `running` followed by exactly one terminal
status. -/
theorem runAutomation_statusSets {cfg : Config} (hq : Quiet cfg)
    (env : Nat → AttemptEnv) (s : St) : ∃ s',
      runAutomation cfg env s = .ok () s' ∧
      (statusSets s'.events =
         statusSets s.events ++ [TaskStatus.running, TaskStatus.completed] ∨
       statusSets s'.events =
         statusSets s.events ++ [TaskStatus.running, TaskStatus.failed]) := by
  obtain ⟨sA, eA, hpA, _, _⟩ := setStatus_step .running s
  obtain ⟨u1, s1, e1, hp1⟩ :=
    nt_ps_step (nt_notifyUpdate hq) (ps_notifyUpdate _) sA
  obtain ⟨u2, s2, e2, hp2⟩ :=
    nt_ps_step (nt_addDebugLog cfg _) (ps_addDebugLog cfg _) s1
  obtain ⟨b, s3, e3, hp3⟩ := runAttempts_statusSets hq env MAX_RETRIES 1 s2
  have hA : statusSets s2.events =
      statusSets s.events ++ [TaskStatus.running] := by
    rw [hp2, hp1, hpA]
  rcases b with _ | _
  · -- all attempts failed
    obtain ⟨sB, eB, hpB, _, _⟩ := setStatus_step .failed s3
    obtain ⟨u4, s4, e4, hp4⟩ :=
      nt_ps_step (nt_modifyTask _) (ps_modifyTask _) sB
    obtain ⟨u5, s5, e5, hp5⟩ :=
      nt_ps_step (nt_addDebugLog cfg _) (ps_addDebugLog cfg _) s4
    obtain ⟨u6, s6, e6, hp6⟩ :=
      nt_ps_step (nt_notifyUpdate hq) (ps_notifyUpdate _) s5
    refine ⟨s6, ?_, Or.inr ?_⟩
    · unfold runAutomation
      rw [step_bind eA, step_bind e1, step_bind e2, step_bind e3]
      simp only [Bool.false_eq_true, if_false, ite_false]
      rw [step_bind eB, step_bind e4, step_bind e5]
      exact e6
    · rw [hp6, hp5, hp4, hpB, hp3, hA]
      simp
  · -- some attempt succeeded
    refine ⟨s3, ?_, Or.inl ?_⟩
    · unfold runAutomation
      rw [step_bind eA, step_bind e1, step_bind e2, step_bind e3]
      simp [pure_app]
    · rw [hp3, hA]
      simp

/-! ### Scenario evaluation lemmas

The embedded methods are executed symbolically by `simp` using the
application lemmas above.  Each scenario lemma fixes the environment and
describes the one run the code can take from an arbitrary state: the
returned value and the observable deltas of the final state
`runSt (...) s`.  Conditional equations for `softErrorLoop` let the
evaluation prune dead pattern branches eagerly. -/

theorem softErrorLoop_nil (cfg : Config) (content : String) :
    softErrorLoop cfg content [] = pure false := rfl

theorem softErrorLoop_cons_false {content : String} {pats : List String}
    {msg : String} {rest : List (List String × String)} (cfg : Config)
    (h : seqOccurCI content pats = false) :
    softErrorLoop cfg content ((pats, msg) :: rest) =
      softErrorLoop cfg content rest := by
  conv_lhs => unfold softErrorLoop
  rw [h]
  simp

theorem softErrorLoop_cons_true {content : String} {pats : List String}
    {msg : String} {rest : List (List String × String)} (cfg : Config)
    (h : seqOccurCI content pats = true) :
    softErrorLoop cfg content ((pats, msg) :: rest) = (do
      modifyTask (fun t => { t with errorMessages := t.errorMessages ++ [msg] })
      updateStep "submit" .failed none
      addLog cfg ("(x) " ++ msg)
      let _ ← softErrorLoop cfg content rest
      pure true) := by
  conv_lhs => unfold softErrorLoop
  rw [h]
  simp

/-- `verifyEmail` with a mailbox that never answers, started with the
submission-time cookies `["sid-signup"]`: exhausts its 10 polls, marks
the step failed, sends `verified = false` and the submission cookies to
the gateway, and closes context and browser. -/
theorem verify_neverMail_spec {cfg : Config} (hdm : cfg.debugMode = true)
    (hq : ∀ k, cfg.callbackThrows k = none) (s : St) :
    verifyEmail cfg neverMailVerifyEnv ["sid-signup"] s =
      .ok () (runSt (verifyEmail cfg neverMailVerifyEnv ["sid-signup"]) s) ∧
    (runSt (verifyEmail cfg neverMailVerifyEnv ["sid-signup"]) s).events =
      s.events ++ [.sleep 5000, .sleep 3000, .sleep 3000, .sleep 3000,
        .sleep 3000, .sleep 3000, .sleep 3000, .sleep 3000, .sleep 3000,
        .sleep 3000, .sleep 3000, .notify,
        .gatewaySave s.task.email s.task.password false, .gatewayCookies 1,
        .closeContext, .closeBrowser] ∧
    (runSt (verifyEmail cfg neverMailVerifyEnv ["sid-signup"]) s).task.id =
      s.task.id ∧
    (runSt (verifyEmail cfg neverMailVerifyEnv ["sid-signup"]) s).task.email =
      s.task.email ∧
    (runSt (verifyEmail cfg neverMailVerifyEnv ["sid-signup"]) s).task.password =
      s.task.password ∧
    (runSt (verifyEmail cfg neverMailVerifyEnv ["sid-signup"]) s).task.status =
      s.task.status := by
  have core : ∃ s1,
      verifyEmail cfg neverMailVerifyEnv ["sid-signup"] s = .ok () s1 ∧
      s1.events = s.events ++ [.sleep 5000, .sleep 3000, .sleep 3000,
        .sleep 3000, .sleep 3000, .sleep 3000, .sleep 3000, .sleep 3000,
        .sleep 3000, .sleep 3000, .sleep 3000, .notify,
        .gatewaySave s.task.email s.task.password false, .gatewayCookies 1,
        .closeContext, .closeBrowser] ∧
      s1.task.id = s.task.id ∧ s1.task.email = s.task.email ∧
      s1.task.password = s.task.password ∧
      s1.task.status = s.task.status := by
    simp only [verifyEmail, pollLoop, scanMessages, neverMailVerifyEnv,
      saveAccountToDatabase, addLog, addDebugLog, updateStep,
      bind_app, pure_app, tryCatch_app, throwErr_app, getTask_app,
      modifyTask_app, emit_app, notifyUpdate_app, closeContextOp_app,
      closeBrowserOp_app, hdm, hq,
      Bool.false_eq_true, Bool.true_eq_false, if_true, if_false,
      ite_true, ite_false]
    refine ⟨_, rfl, ?_, by simp, by simp, by simp, by simp⟩
    simp [List.append_assoc]
  obtain ⟨s1, he, hev, hid, hem, hpw, hst⟩ := core
  have hrun : runSt (verifyEmail cfg neverMailVerifyEnv ["sid-signup"]) s = s1 := by
    unfold runSt
    rw [he]
    rfl
  rw [hrun]
  exact ⟨he, hev, hid, hem, hpw, hst⟩

/-- `verifyEmail` with a mailbox answering on the first poll: navigates
the link, marks the step completed, sends `verified = true` and the
fresh context cookies to the gateway, closes context and browser, and
performs no subscriber notification. -/
theorem verify_good_spec {cfg : Config} (hdm : cfg.debugMode = true)
    (ck : List String) (s : St) :
    verifyEmail cfg goodVerifyEnv ck s =
      .ok () (runSt (verifyEmail cfg goodVerifyEnv ck) s) ∧
    (runSt (verifyEmail cfg goodVerifyEnv ck) s).events =
      s.events ++ [.sleep 5000, .sleep 3000,
        .gatewaySave s.task.email s.task.password true, .gatewayCookies 1,
        .closeContext, .closeBrowser] ∧
    (runSt (verifyEmail cfg goodVerifyEnv ck) s).task.id = s.task.id ∧
    (runSt (verifyEmail cfg goodVerifyEnv ck) s).task.email = s.task.email ∧
    (runSt (verifyEmail cfg goodVerifyEnv ck) s).task.password =
      s.task.password ∧
    (runSt (verifyEmail cfg goodVerifyEnv ck) s).task.status = s.task.status ∧
    (runSt (verifyEmail cfg goodVerifyEnv ck) s).notifyCount = s.notifyCount := by
  have hscan : scanMessages goodVerifyEnv
      [{ id := "m1", fromAddress := "noreply@replit.com" }] =
      some "https://replit.com/verify/abc" := by decide
  have core : ∃ s1,
      verifyEmail cfg goodVerifyEnv ck s = .ok () s1 ∧
      s1.events = s.events ++ [.sleep 5000, .sleep 3000,
        .gatewaySave s.task.email s.task.password true, .gatewayCookies 1,
        .closeContext, .closeBrowser] ∧
      s1.task.id = s.task.id ∧ s1.task.email = s.task.email ∧
      s1.task.password = s.task.password ∧ s1.task.status = s.task.status ∧
      s1.notifyCount = s.notifyCount := by
    simp only [verifyEmail, pollLoop, goodVerifyEnv, hscan,
      saveAccountToDatabase, addLog, addDebugLog, updateStep,
      bind_app, pure_app, tryCatch_app, throwErr_app, getTask_app,
      modifyTask_app, emit_app, notifyUpdate_app, closeContextOp_app,
      closeBrowserOp_app, hdm,
      Bool.false_eq_true, Bool.true_eq_false, if_true, if_false,
      ite_true, ite_false]
    refine ⟨_, rfl, ?_, by simp, by simp, by simp, by simp, by simp⟩
    simp [List.append_assoc]
  obtain ⟨s1, he, hev, hid, hem, hpw, hst, hnc⟩ := core
  have hrun : runSt (verifyEmail cfg goodVerifyEnv ck) s = s1 := by
    unfold runSt
    rw [he]
    rfl
  rw [hrun]
  exact ⟨he, hev, hid, hem, hpw, hst, hnc⟩

attribute [irreducible] verifyEmail

theorem verify_neverMail_eq {cfg : Config} (hdm : cfg.debugMode = true)
    (hq : ∀ k, cfg.callbackThrows k = none) (s : St) :
    verifyEmail cfg neverMailVerifyEnv ["sid-signup"] s =
      .ok () (runSt (verifyEmail cfg neverMailVerifyEnv ["sid-signup"]) s) :=
  (verify_neverMail_spec hdm hq s).1

theorem verify_neverMail_events {cfg : Config} (hdm : cfg.debugMode = true)
    (hq : ∀ k, cfg.callbackThrows k = none) (s : St) :
    (runSt (verifyEmail cfg neverMailVerifyEnv ["sid-signup"]) s).events =
      s.events ++ [.sleep 5000, .sleep 3000, .sleep 3000, .sleep 3000,
        .sleep 3000, .sleep 3000, .sleep 3000, .sleep 3000, .sleep 3000,
        .sleep 3000, .sleep 3000, .notify,
        .gatewaySave s.task.email s.task.password false, .gatewayCookies 1,
        .closeContext, .closeBrowser] :=
  (verify_neverMail_spec hdm hq s).2.1

theorem verify_neverMail_id {cfg : Config} (hdm : cfg.debugMode = true)
    (hq : ∀ k, cfg.callbackThrows k = none) (s : St) :
    (runSt (verifyEmail cfg neverMailVerifyEnv ["sid-signup"]) s).task.id =
      s.task.id :=
  (verify_neverMail_spec hdm hq s).2.2.1

theorem verify_neverMail_email {cfg : Config} (hdm : cfg.debugMode = true)
    (hq : ∀ k, cfg.callbackThrows k = none) (s : St) :
    (runSt (verifyEmail cfg neverMailVerifyEnv ["sid-signup"]) s).task.email =
      s.task.email :=
  (verify_neverMail_spec hdm hq s).2.2.2.1

theorem verify_neverMail_password {cfg : Config} (hdm : cfg.debugMode = true)
    (hq : ∀ k, cfg.callbackThrows k = none) (s : St) :
    (runSt (verifyEmail cfg neverMailVerifyEnv ["sid-signup"]) s).task.password =
      s.task.password :=
  (verify_neverMail_spec hdm hq s).2.2.2.2.1

theorem verify_neverMail_status {cfg : Config} (hdm : cfg.debugMode = true)
    (hq : ∀ k, cfg.callbackThrows k = none) (s : St) :
    (runSt (verifyEmail cfg neverMailVerifyEnv ["sid-signup"]) s).task.status =
      s.task.status :=
  (verify_neverMail_spec hdm hq s).2.2.2.2.2

theorem verify_good_eq {cfg : Config} (hdm : cfg.debugMode = true)
    (ck : List String) (s : St) :
    verifyEmail cfg goodVerifyEnv ck s =
      .ok () (runSt (verifyEmail cfg goodVerifyEnv ck) s) :=
  (verify_good_spec hdm ck s).1

theorem verify_good_events {cfg : Config} (hdm : cfg.debugMode = true)
    (ck : List String) (s : St) :
    (runSt (verifyEmail cfg goodVerifyEnv ck) s).events =
      s.events ++ [.sleep 5000, .sleep 3000,
        .gatewaySave s.task.email s.task.password true, .gatewayCookies 1,
        .closeContext, .closeBrowser] :=
  (verify_good_spec hdm ck s).2.1

theorem verify_good_id {cfg : Config} (hdm : cfg.debugMode = true)
    (ck : List String) (s : St) :
    (runSt (verifyEmail cfg goodVerifyEnv ck) s).task.id = s.task.id :=
  (verify_good_spec hdm ck s).2.2.1

theorem verify_good_email {cfg : Config} (hdm : cfg.debugMode = true)
    (ck : List String) (s : St) :
    (runSt (verifyEmail cfg goodVerifyEnv ck) s).task.email = s.task.email :=
  (verify_good_spec hdm ck s).2.2.2.1

theorem verify_good_password {cfg : Config} (hdm : cfg.debugMode = true)
    (ck : List String) (s : St) :
    (runSt (verifyEmail cfg goodVerifyEnv ck) s).task.password =
      s.task.password :=
  (verify_good_spec hdm ck s).2.2.2.2.1

theorem verify_good_status {cfg : Config} (hdm : cfg.debugMode = true)
    (ck : List String) (s : St) :
    (runSt (verifyEmail cfg goodVerifyEnv ck) s).task.status = s.task.status :=
  (verify_good_spec hdm ck s).2.2.2.2.2.1

theorem verify_good_notifyCount {cfg : Config} (hdm : cfg.debugMode = true)
    (ck : List String) (s : St) :
    (runSt (verifyEmail cfg goodVerifyEnv ck) s).notifyCount = s.notifyCount :=
  (verify_good_spec hdm ck s).2.2.2.2.2.2

/-- A soft-error attempt ("try again" text, still on the signup URL):
returns `false`; the observable trace is the attempt start, the browser
launch, the Session Store read, one notification (the recorded error
log) and the three closes; the task status is untouched. -/
theorem attempt_softFail_spec {cfg : Config} (hdm : cfg.debugMode = true)
    (hsol : cfg.captchaSolverConfigured = false)
    (hq : ∀ k, cfg.callbackThrows k = none) (n : Nat) (s : St) :
    attemptSignup cfg softFailEnv n s =
      .ok false (runSt (attemptSignup cfg softFailEnv n) s) ∧
    (runSt (attemptSignup cfg softFailEnv n) s).events =
      s.events ++ [.attemptStart n, .browserLaunch,
        .loadCookiesStore s.task.id, .notify, .closePage, .closeContext,
        .closeBrowser] ∧
    (runSt (attemptSignup cfg softFailEnv n) s).task.id = s.task.id ∧
    (runSt (attemptSignup cfg softFailEnv n) s).task.email = s.task.email ∧
    (runSt (attemptSignup cfg softFailEnv n) s).task.password = s.task.password ∧
    (runSt (attemptSignup cfg softFailEnv n) s).task.status = s.task.status ∧
    (runSt (attemptSignup cfg softFailEnv n) s).task.completedAt =
      s.task.completedAt := by
  have h1 : captchaPatternsTest "Whoa there, please try again later" = false := by
    decide
  have h3 : seqOccurCI "Whoa there, please try again later" ["try again"] = true := by
    decide
  have h2 : seqOccurCI "Whoa there, please try again later"
      ["doing it too much"] = false := by decide
  have h4 : seqOccurCI "Whoa there, please try again later"
      ["email", "already", "taken"] = false := by decide
  have h5 : seqOccurCI "Whoa there, please try again later"
      ["email", "exists"] = false := by decide
  have h6 : seqOccurCI "Whoa there, please try again later"
      ["invalid", "email"] = false := by decide
  have h7 : seqOccurCI "Whoa there, please try again later"
      ["password", "short"] = false := by decide
  have h8 : containsSub "https://replit.com/signup" "/signup" = true := by decide
  have core : ∃ s1, attemptSignup cfg softFailEnv n s = .ok false s1 ∧
      s1.events = s.events ++ [.attemptStart n, .browserLaunch,
        .loadCookiesStore s.task.id, .notify, .closePage, .closeContext,
        .closeBrowser] ∧
      s1.task.id = s.task.id ∧ s1.task.email = s.task.email ∧
      s1.task.password = s.task.password ∧ s1.task.status = s.task.status ∧
      s1.task.completedAt = s.task.completedAt := by
    by_cases hn : n > 1 <;>
    · simp only [attemptSignup, attemptSignupTry, softFailEnv,
        otherErrorPatterns, softErrorLoop_nil, softErrorLoop_cons_false,
        softErrorLoop_cons_true, scrapeErrors, addLog, addDebugLog,
        updateStep, loadCookiesOp, bind_app, pure_app, tryCatch_app,
        throwErr_app, getTask_app, modifyTask_app, emit_app,
        notifyUpdate_app, closePageOp_app, closeContextOp_app,
        closeBrowserOp_app, closeAllGuarded_app, launchBrowserOp_app,
        openContextOp_app, openPageOp_app, hn, hdm, hsol, hq,
        h1, h2, h3, h4, h5, h6, h7, h8,
        Bool.not_true, Bool.not_false, Bool.false_and, Bool.true_and,
        Bool.and_false, Bool.and_true, Bool.false_eq_true,
        Bool.true_eq_false, if_true, if_false, ite_true, ite_false]
      refine ⟨_, rfl, ?_, by simp, by simp, by simp, by simp, by simp⟩
      simp [List.append_assoc]
  obtain ⟨s1, he, hev, hid, hem, hpw, hst, hca⟩ := core
  have hrun : runSt (attemptSignup cfg softFailEnv n) s = s1 := by
    unfold runSt
    rw [he]
    rfl
  rw [hrun]
  exact ⟨he, hev, hid, hem, hpw, hst, hca⟩

/-- A clean-redirect attempt with the verification mail arriving on the
first poll: returns `true`; the trace shows the Session Store read, no
Session Store write, and one gateway call with `verified = true`; no
subscriber notification happens inside the attempt. -/
theorem attempt_success_spec {cfg : Config} (hdm : cfg.debugMode = true)
    (hsol : cfg.captchaSolverConfigured = false) (n : Nat) (s : St) :
    attemptSignup cfg successEnv n s =
      .ok true (runSt (attemptSignup cfg successEnv n) s) ∧
    (runSt (attemptSignup cfg successEnv n) s).events =
      s.events ++ [.attemptStart n, .browserLaunch,
        .loadCookiesStore s.task.id, .sleep 5000, .sleep 3000,
        .gatewaySave s.task.email s.task.password true, .gatewayCookies 1,
        .closeContext, .closeBrowser] ∧
    (runSt (attemptSignup cfg successEnv n) s).task.id = s.task.id ∧
    (runSt (attemptSignup cfg successEnv n) s).task.email = s.task.email ∧
    (runSt (attemptSignup cfg successEnv n) s).task.password = s.task.password ∧
    (runSt (attemptSignup cfg successEnv n) s).task.status = s.task.status ∧
    (runSt (attemptSignup cfg successEnv n) s).notifyCount = s.notifyCount := by
  have h1 : captchaPatternsTest "Welcome to your new workspace" = false := by
    decide
  have h2 : seqOccurCI "Welcome to your new workspace"
      ["doing it too much"] = false := by decide
  have h3 : seqOccurCI "Welcome to your new workspace" ["try again"] = false := by
    decide
  have h4 : seqOccurCI "Welcome to your new workspace"
      ["email", "already", "taken"] = false := by decide
  have h5 : seqOccurCI "Welcome to your new workspace"
      ["email", "exists"] = false := by decide
  have h6 : seqOccurCI "Welcome to your new workspace"
      ["invalid", "email"] = false := by decide
  have h7 : seqOccurCI "Welcome to your new workspace"
      ["password", "short"] = false := by decide
  have h8 : containsSub "https://replit.com/~" "/signup" = false := by decide
  have h9 : containsSub "https://replit.com/~" "replit.com" = true := by decide
  have core : ∃ s1, attemptSignup cfg successEnv n s = .ok true s1 ∧
      s1.events = s.events ++ [.attemptStart n, .browserLaunch,
        .loadCookiesStore s.task.id, .sleep 5000, .sleep 3000,
        .gatewaySave s.task.email s.task.password true, .gatewayCookies 1,
        .closeContext, .closeBrowser] ∧
      s1.task.id = s.task.id ∧ s1.task.email = s.task.email ∧
      s1.task.password = s.task.password ∧ s1.task.status = s.task.status ∧
      s1.notifyCount = s.notifyCount := by
    by_cases hn : n > 1 <;>
    · simp only [attemptSignup, attemptSignupTry, successEnv, softFailEnv,
        otherErrorPatterns, softErrorLoop_nil, softErrorLoop_cons_false,
        scrapeErrors, addLog, addDebugLog,
        updateStep, loadCookiesOp, bind_app, pure_app, tryCatch_app,
        throwErr_app, getTask_app, modifyTask_app, emit_app,
        notifyUpdate_app, closePageOp_app, closeContextOp_app,
        closeBrowserOp_app, closeAllGuarded_app, launchBrowserOp_app,
        openContextOp_app, openPageOp_app, hn, hdm, hsol,
        verify_good_eq hdm, verify_good_events hdm, verify_good_id hdm,
        verify_good_status hdm, verify_good_notifyCount hdm,
        h1, h2, h3, h4, h5, h6, h7, h8, h9,
        Bool.not_true, Bool.not_false, Bool.false_and, Bool.true_and,
        Bool.and_false, Bool.and_true, Bool.false_eq_true,
        Bool.true_eq_false, if_true, if_false, ite_true, ite_false]
      refine ⟨_, rfl, ?_,
        by simp [verify_good_id hdm], by simp [verify_good_email hdm],
        by simp [verify_good_password hdm], by simp [verify_good_status hdm],
        by simp [verify_good_notifyCount hdm]⟩
      simp [verify_good_events hdm, List.append_assoc]
  obtain ⟨s1, he, hev, hid, hem, hpw, hst, hnc⟩ := core
  have hrun : runSt (attemptSignup cfg successEnv n) s = s1 := by
    unfold runSt
    rw [he]
    rfl
  rw [hrun]
  exact ⟨he, hev, hid, hem, hpw, hst, hnc⟩

/-- A clean-redirect attempt whose verification mail never arrives:
still returns `true`; the gateway records `verified = false`. -/
theorem attempt_redirectNoMail_spec {cfg : Config} (hdm : cfg.debugMode = true)
    (hsol : cfg.captchaSolverConfigured = false)
    (hq : ∀ k, cfg.callbackThrows k = none) (n : Nat) (s : St) :
    attemptSignup cfg redirectNoMailEnv n s =
      .ok true (runSt (attemptSignup cfg redirectNoMailEnv n) s) ∧
    (runSt (attemptSignup cfg redirectNoMailEnv n) s).events =
      s.events ++ [.attemptStart n, .browserLaunch,
        .loadCookiesStore s.task.id, .sleep 5000, .sleep 3000, .sleep 3000,
        .sleep 3000, .sleep 3000, .sleep 3000, .sleep 3000, .sleep 3000,
        .sleep 3000, .sleep 3000, .sleep 3000, .notify,
        .gatewaySave s.task.email s.task.password false, .gatewayCookies 1,
        .closeContext, .closeBrowser] ∧
    (runSt (attemptSignup cfg redirectNoMailEnv n) s).task.id = s.task.id ∧
    (runSt (attemptSignup cfg redirectNoMailEnv n) s).task.email =
      s.task.email ∧
    (runSt (attemptSignup cfg redirectNoMailEnv n) s).task.password =
      s.task.password ∧
    (runSt (attemptSignup cfg redirectNoMailEnv n) s).task.status =
      s.task.status := by
  have h1 : captchaPatternsTest "Welcome to your new workspace" = false := by
    decide
  have h2 : seqOccurCI "Welcome to your new workspace"
      ["doing it too much"] = false := by decide
  have h3 : seqOccurCI "Welcome to your new workspace" ["try again"] = false := by
    decide
  have h4 : seqOccurCI "Welcome to your new workspace"
      ["email", "already", "taken"] = false := by decide
  have h5 : seqOccurCI "Welcome to your new workspace"
      ["email", "exists"] = false := by decide
  have h6 : seqOccurCI "Welcome to your new workspace"
      ["invalid", "email"] = false := by decide
  have h7 : seqOccurCI "Welcome to your new workspace"
      ["password", "short"] = false := by decide
  have h8 : containsSub "https://replit.com/~" "/signup" = false := by decide
  have h9 : containsSub "https://replit.com/~" "replit.com" = true := by decide
  have core : ∃ s1, attemptSignup cfg redirectNoMailEnv n s = .ok true s1 ∧
      s1.events = s.events ++ [.attemptStart n, .browserLaunch,
        .loadCookiesStore s.task.id, .sleep 5000, .sleep 3000, .sleep 3000,
        .sleep 3000, .sleep 3000, .sleep 3000, .sleep 3000, .sleep 3000,
        .sleep 3000, .sleep 3000, .sleep 3000, .notify,
        .gatewaySave s.task.email s.task.password false, .gatewayCookies 1,
        .closeContext, .closeBrowser] ∧
      s1.task.id = s.task.id ∧ s1.task.email = s.task.email ∧
      s1.task.password = s.task.password ∧ s1.task.status = s.task.status := by
    by_cases hn : n > 1 <;>
    · simp only [attemptSignup, attemptSignupTry, redirectNoMailEnv,
        successEnv, softFailEnv,
        otherErrorPatterns, softErrorLoop_nil, softErrorLoop_cons_false,
        scrapeErrors, addLog, addDebugLog,
        updateStep, loadCookiesOp, bind_app, pure_app, tryCatch_app,
        throwErr_app, getTask_app, modifyTask_app, emit_app,
        notifyUpdate_app, closePageOp_app, closeContextOp_app,
        closeBrowserOp_app, closeAllGuarded_app, launchBrowserOp_app,
        openContextOp_app, openPageOp_app, hn, hdm, hsol, hq,
        verify_neverMail_eq hdm hq, verify_neverMail_events hdm hq,
        verify_neverMail_id hdm hq, verify_neverMail_status hdm hq,
        h1, h2, h3, h4, h5, h6, h7, h8, h9,
        Bool.not_true, Bool.not_false, Bool.false_and, Bool.true_and,
        Bool.and_false, Bool.and_true, Bool.false_eq_true,
        Bool.true_eq_false, if_true, if_false, ite_true, ite_false]
      refine ⟨_, rfl, ?_,
        by simp [verify_neverMail_id hdm hq],
        by simp [verify_neverMail_email hdm hq],
        by simp [verify_neverMail_password hdm hq],
        by simp [verify_neverMail_status hdm hq]⟩
      simp [verify_neverMail_events hdm hq, List.append_assoc]
  obtain ⟨s1, he, hev, hid, hem, hpw, hst⟩ := core
  have hrun : runSt (attemptSignup cfg redirectNoMailEnv n) s = s1 := by
    unfold runSt
    rw [he]
    rfl
  rw [hrun]
  exact ⟨he, hev, hid, hem, hpw, hst⟩

/-- Propagate a known throw through a sequence. -/
theorem step_bind_thrown {m : M α} {f : α → M β} {s s1 : St} {msg : String}
    (h : m s = .thrown msg s1) : (m >>= f) s = .thrown msg s1 := by
  rw [bind_app, h]

/-- The retry-reset prelude, in debug mode with quiet callbacks: resets
exactly the failed steps, clears `errorMessages` and `screenshots`,
trims `debugLogs` to the whitelist after appending the two retry
markers, waits a backoff of `backoffRand % 8000 + 5000` ms, and touches
no other task field. -/
theorem retryReset_spec {cfg : Config} (hdm : cfg.debugMode = true)
    (hq : ∀ k, cfg.callbackThrows k = none) (aenv : AttemptEnv)
    (attempt : Nat) (s : St) :
    retryReset cfg aenv attempt s =
      .ok () (runSt (retryReset cfg aenv attempt) s) ∧
    (runSt (retryReset cfg aenv attempt) s).events =
      s.events ++ [.notify, .sleep (aenv.backoffRand % 8000 + 5000)] ∧
    (runSt (retryReset cfg aenv attempt) s).task.steps =
      resetFailedSteps s.task.steps ∧
    (runSt (retryReset cfg aenv attempt) s).task.errorMessages = [] ∧
    (runSt (retryReset cfg aenv attempt) s).task.screenshots = [] ∧
    (runSt (retryReset cfg aenv attempt) s).task.debugLogs =
      (s.task.debugLogs ++
        ["\n(retry) Tentative " ++ toString attempt ++ "/" ++
          toString MAX_RETRIES,
         "(wait) Pause de " ++
          toString ((aenv.backoffRand % 8000 + 5000) / 1000) ++ "s..."]).filter
        debugKeep ∧
    (runSt (retryReset cfg aenv attempt) s).task.id = s.task.id ∧
    (runSt (retryReset cfg aenv attempt) s).task.email = s.task.email ∧
    (runSt (retryReset cfg aenv attempt) s).task.password = s.task.password ∧
    (runSt (retryReset cfg aenv attempt) s).task.logs = s.task.logs ∧
    (runSt (retryReset cfg aenv attempt) s).task.createdAt = s.task.createdAt ∧
    (runSt (retryReset cfg aenv attempt) s).task.status = s.task.status ∧
    (runSt (retryReset cfg aenv attempt) s).task.completedAt =
      s.task.completedAt := by
  have core : ∃ s1, retryReset cfg aenv attempt s = .ok () s1 ∧
      s1.events = s.events ++ [.notify, .sleep (aenv.backoffRand % 8000 + 5000)] ∧
      s1.task.steps = resetFailedSteps s.task.steps ∧
      s1.task.errorMessages = [] ∧ s1.task.screenshots = [] ∧
      s1.task.debugLogs = (s.task.debugLogs ++
        ["\n(retry) Tentative " ++ toString attempt ++ "/" ++
          toString MAX_RETRIES,
         "(wait) Pause de " ++
          toString ((aenv.backoffRand % 8000 + 5000) / 1000) ++ "s..."]).filter
        debugKeep ∧
      s1.task.id = s.task.id ∧ s1.task.email = s.task.email ∧
      s1.task.password = s.task.password ∧ s1.task.logs = s.task.logs ∧
      s1.task.createdAt = s.task.createdAt ∧ s1.task.status = s.task.status ∧
      s1.task.completedAt = s.task.completedAt := by
    simp only [retryReset, addDebugLog, bind_app, pure_app, getTask_app,
      modifyTask_app, emit_app, notifyUpdate_app, hdm, hq,
      if_true, if_false, ite_true, ite_false]
    refine ⟨_, rfl, by simp, by simp, by simp, by simp, ?_, by simp, by simp,
      by simp, by simp, by simp, by simp, by simp⟩
    simp [List.append_assoc]
  obtain ⟨s1, he, hrest⟩ := core
  have hrun : runSt (retryReset cfg aenv attempt) s = s1 := by
    unfold runSt
    rw [he]
    rfl
  rw [hrun]
  exact ⟨he, hrest⟩

/-- The bootstrap debug logs of `createReplitAccount` touch only
`debugLogs`. -/
theorem createStartLogs_spec (cfg : Config) (s : St) :
    createStartLogs cfg s = .ok () (runSt (createStartLogs cfg) s) ∧
    (runSt (createStartLogs cfg) s).events = s.events ∧
    (runSt (createStartLogs cfg) s).task.id = s.task.id ∧
    (runSt (createStartLogs cfg) s).task.email = s.task.email ∧
    (runSt (createStartLogs cfg) s).task.password = s.task.password ∧
    (runSt (createStartLogs cfg) s).task.status = s.task.status ∧
    (runSt (createStartLogs cfg) s).task.completedAt = s.task.completedAt ∧
    (runSt (createStartLogs cfg) s).notifyCount = s.notifyCount := by
  have core : ∃ s1, createStartLogs cfg s = .ok () s1 ∧
      s1.events = s.events ∧ s1.task.id = s.task.id ∧
      s1.task.email = s.task.email ∧ s1.task.password = s.task.password ∧
      s1.task.status = s.task.status ∧
      s1.task.completedAt = s.task.completedAt ∧
      s1.notifyCount = s.notifyCount := by
    by_cases hdm : cfg.debugMode = true <;>
    · simp only [createStartLogs, addDebugLog, bind_app, pure_app,
        getTask_app, modifyTask_app, hdm, Bool.false_eq_true,
        Bool.true_eq_false, if_true, if_false, ite_true, ite_false]
      refine ⟨_, rfl, by simp, by simp, by simp, by simp, by simp, by simp,
        by simp⟩
  obtain ⟨s1, he, hrest⟩ := core
  have hrun : runSt (createStartLogs cfg) s = s1 := by
    unfold runSt
    rw [he]
    rfl
  rw [hrun]
  exact ⟨he, hrest⟩

/-- A CAPTCHA attempt without a configured solver, for an arbitrary
environment that reaches classification: the attempt returns `false`
without throwing, and page, context and browser are closed. -/
theorem attempt_captchaNoSolver_spec {cfg : Config} {aenv : AttemptEnv}
    (hdm : cfg.debugMode = true)
    (hsol : cfg.captchaSolverConfigured = false)
    (hq : ∀ k, cfg.callbackThrows k = none)
    (hcap : captchaPatternsTest aenv.pageContent = true)
    (hnav : aenv.navError = none)
    (hemail : aenv.emailInputFound = true)
    (hpw : aenv.passwordInputFound = true)
    (hbtn : aenv.createButtonFound = true)
    (n : Nat) (s : St) :
    attemptSignup cfg aenv n s =
      .ok false (runSt (attemptSignup cfg aenv n) s) ∧
    (runSt (attemptSignup cfg aenv n) s).events =
      s.events ++ [.attemptStart n, .browserLaunch,
        .loadCookiesStore s.task.id, .notify, .closePage, .closeContext,
        .closeBrowser] ∧
    (runSt (attemptSignup cfg aenv n) s).pageOpen = false ∧
    (runSt (attemptSignup cfg aenv n) s).contextOpen = false ∧
    (runSt (attemptSignup cfg aenv n) s).browserOpen = false := by
  have core : ∃ s1, attemptSignup cfg aenv n s = .ok false s1 ∧
      s1.events = s.events ++ [.attemptStart n, .browserLaunch,
        .loadCookiesStore s.task.id, .notify, .closePage, .closeContext,
        .closeBrowser] ∧
      s1.pageOpen = false ∧ s1.contextOpen = false ∧
      s1.browserOpen = false := by
    by_cases hn : n > 1 <;> by_cases hb : aenv.emailButtonFound = true <;>
    · simp only [attemptSignup, attemptSignupTry, addLog, addDebugLog,
        updateStep, loadCookiesOp, bind_app, pure_app, tryCatch_app,
        throwErr_app, getTask_app, modifyTask_app, emit_app,
        notifyUpdate_app, closePageOp_app, closeContextOp_app,
        closeBrowserOp_app, closeAllGuarded_app, launchBrowserOp_app,
        openContextOp_app, openPageOp_app, hn, hb, hdm, hsol, hq,
        hcap, hnav, hemail, hpw, hbtn,
        Bool.not_true, Bool.not_false, Bool.false_and, Bool.true_and,
        Bool.and_false, Bool.and_true, Bool.false_eq_true,
        Bool.true_eq_false, if_true, if_false, ite_true, ite_false]
      refine ⟨_, rfl, ?_, by simp, by simp, by simp⟩
      simp [List.append_assoc]
  obtain ⟨s1, he, hrest⟩ := core
  have hrun : runSt (attemptSignup cfg aenv n) s = s1 := by
    unfold runSt
    rw [he]
    rfl
  rw [hrun]
  exact ⟨he, hrest⟩

/-- A CAPTCHA attempt with a configured solver that succeeds, whose
resubmission redirects off the signup path: the attempt writes the
Session Store once (cookie persistence after the solved resubmission),
runs email verification and returns `true`. -/
theorem attempt_captchaSolved_spec {cfg : Config} (hdm : cfg.debugMode = true)
    (hsol : cfg.captchaSolverConfigured = true)
    (hq : ∀ k, cfg.callbackThrows k = none) (n : Nat) (s : St) :
    attemptSignup cfg captchaSolvedEnv n s =
      .ok true (runSt (attemptSignup cfg captchaSolvedEnv n) s) ∧
    (runSt (attemptSignup cfg captchaSolvedEnv n) s).events =
      s.events ++ [.attemptStart n, .browserLaunch,
        .loadCookiesStore s.task.id, .notify, .saveCookiesStore s.task.id,
        .sleep 5000, .sleep 3000,
        .gatewaySave s.task.email s.task.password true, .gatewayCookies 1,
        .closeContext, .closeBrowser] ∧
    (runSt (attemptSignup cfg captchaSolvedEnv n) s).task.id = s.task.id ∧
    (runSt (attemptSignup cfg captchaSolvedEnv n) s).task.status =
      s.task.status := by
  have h1 : captchaPatternsTest "please solve this CAPTCHA to continue" =
      true := by decide
  have h8 : containsSub "https://replit.com/~" "/signup" = false := by decide
  have h9 : containsSub "https://replit.com/~" "replit.com" = true := by decide
  have core : ∃ s1, attemptSignup cfg captchaSolvedEnv n s = .ok true s1 ∧
      s1.events = s.events ++ [.attemptStart n, .browserLaunch,
        .loadCookiesStore s.task.id, .notify, .saveCookiesStore s.task.id,
        .sleep 5000, .sleep 3000,
        .gatewaySave s.task.email s.task.password true, .gatewayCookies 1,
        .closeContext, .closeBrowser] ∧
      s1.task.id = s.task.id ∧ s1.task.status = s.task.status := by
    by_cases hn : n > 1 <;>
    · simp only [attemptSignup, attemptSignupTry, captchaSolvedEnv,
        captchaEnv, softFailEnv, solveCaptcha, injectCaptchaSolution,
        addLog, addDebugLog,
        updateStep, loadCookiesOp, bind_app, pure_app, tryCatch_app,
        throwErr_app, getTask_app, modifyTask_app, emit_app,
        notifyUpdate_app, closePageOp_app, closeContextOp_app,
        closeBrowserOp_app, closeAllGuarded_app, launchBrowserOp_app,
        openContextOp_app, openPageOp_app, hn, hdm, hsol, hq,
        verify_good_eq hdm, verify_good_events hdm, verify_good_id hdm,
        verify_good_email hdm, verify_good_password hdm,
        verify_good_status hdm,
        h1, h8, h9,
        Bool.not_true, Bool.not_false, Bool.false_and, Bool.true_and,
        Bool.and_false, Bool.and_true, Bool.false_eq_true,
        Bool.true_eq_false, if_true, if_false, ite_true, ite_false]
      refine ⟨_, rfl, ?_,
        by simp [verify_good_id hdm], by simp [verify_good_status hdm]⟩
      simp [verify_good_events hdm, verify_good_id hdm,
        verify_good_email hdm, verify_good_password hdm, List.append_assoc]
  obtain ⟨s1, he, hrest⟩ := core
  have hrun : runSt (attemptSignup cfg captchaSolvedEnv n) s = s1 := by
    unfold runSt
    rw [he]
    rfl
  rw [hrun]
  exact ⟨he, hrest⟩

/-! ### Derived equations and full-run drivers -/

theorem attempt_softFail_eq {cfg : Config} (hdm : cfg.debugMode = true)
    (hsol : cfg.captchaSolverConfigured = false)
    (hq : ∀ k, cfg.callbackThrows k = none) (n : Nat) (s : St) :
    attemptSignup cfg softFailEnv n s =
      .ok false (runSt (attemptSignup cfg softFailEnv n) s) :=
  (attempt_softFail_spec hdm hsol hq n s).1

theorem attempt_softFail_events {cfg : Config} (hdm : cfg.debugMode = true)
    (hsol : cfg.captchaSolverConfigured = false)
    (hq : ∀ k, cfg.callbackThrows k = none) (n : Nat) (s : St) :
    (runSt (attemptSignup cfg softFailEnv n) s).events =
      s.events ++ [.attemptStart n, .browserLaunch,
        .loadCookiesStore s.task.id, .notify, .closePage, .closeContext,
        .closeBrowser] :=
  (attempt_softFail_spec hdm hsol hq n s).2.1

theorem attempt_softFail_id {cfg : Config} (hdm : cfg.debugMode = true)
    (hsol : cfg.captchaSolverConfigured = false)
    (hq : ∀ k, cfg.callbackThrows k = none) (n : Nat) (s : St) :
    (runSt (attemptSignup cfg softFailEnv n) s).task.id = s.task.id :=
  (attempt_softFail_spec hdm hsol hq n s).2.2.1

theorem attempt_softFail_email {cfg : Config} (hdm : cfg.debugMode = true)
    (hsol : cfg.captchaSolverConfigured = false)
    (hq : ∀ k, cfg.callbackThrows k = none) (n : Nat) (s : St) :
    (runSt (attemptSignup cfg softFailEnv n) s).task.email = s.task.email :=
  (attempt_softFail_spec hdm hsol hq n s).2.2.2.1

theorem attempt_softFail_password {cfg : Config} (hdm : cfg.debugMode = true)
    (hsol : cfg.captchaSolverConfigured = false)
    (hq : ∀ k, cfg.callbackThrows k = none) (n : Nat) (s : St) :
    (runSt (attemptSignup cfg softFailEnv n) s).task.password =
      s.task.password :=
  (attempt_softFail_spec hdm hsol hq n s).2.2.2.2.1

theorem attempt_softFail_status {cfg : Config} (hdm : cfg.debugMode = true)
    (hsol : cfg.captchaSolverConfigured = false)
    (hq : ∀ k, cfg.callbackThrows k = none) (n : Nat) (s : St) :
    (runSt (attemptSignup cfg softFailEnv n) s).task.status = s.task.status :=
  (attempt_softFail_spec hdm hsol hq n s).2.2.2.2.2.1

theorem retryReset_eq {cfg : Config} (hdm : cfg.debugMode = true)
    (hq : ∀ k, cfg.callbackThrows k = none) (aenv : AttemptEnv)
    (attempt : Nat) (s : St) :
    retryReset cfg aenv attempt s =
      .ok () (runSt (retryReset cfg aenv attempt) s) :=
  (retryReset_spec hdm hq aenv attempt s).1

theorem retryReset_events {cfg : Config} (hdm : cfg.debugMode = true)
    (hq : ∀ k, cfg.callbackThrows k = none) (aenv : AttemptEnv)
    (attempt : Nat) (s : St) :
    (runSt (retryReset cfg aenv attempt) s).events =
      s.events ++ [.notify, .sleep (aenv.backoffRand % 8000 + 5000)] :=
  (retryReset_spec hdm hq aenv attempt s).2.1

theorem retryReset_id {cfg : Config} (hdm : cfg.debugMode = true)
    (hq : ∀ k, cfg.callbackThrows k = none) (aenv : AttemptEnv)
    (attempt : Nat) (s : St) :
    (runSt (retryReset cfg aenv attempt) s).task.id = s.task.id :=
  (retryReset_spec hdm hq aenv attempt s).2.2.2.2.2.2.1

theorem retryReset_email {cfg : Config} (hdm : cfg.debugMode = true)
    (hq : ∀ k, cfg.callbackThrows k = none) (aenv : AttemptEnv)
    (attempt : Nat) (s : St) :
    (runSt (retryReset cfg aenv attempt) s).task.email = s.task.email :=
  (retryReset_spec hdm hq aenv attempt s).2.2.2.2.2.2.2.1

theorem retryReset_password {cfg : Config} (hdm : cfg.debugMode = true)
    (hq : ∀ k, cfg.callbackThrows k = none) (aenv : AttemptEnv)
    (attempt : Nat) (s : St) :
    (runSt (retryReset cfg aenv attempt) s).task.password = s.task.password :=
  (retryReset_spec hdm hq aenv attempt s).2.2.2.2.2.2.2.2.1

theorem retryReset_status {cfg : Config} (hdm : cfg.debugMode = true)
    (hq : ∀ k, cfg.callbackThrows k = none) (aenv : AttemptEnv)
    (attempt : Nat) (s : St) :
    (runSt (retryReset cfg aenv attempt) s).task.status = s.task.status :=
  (retryReset_spec hdm hq aenv attempt s).2.2.2.2.2.2.2.2.2.2.2.1

theorem createStartLogs_eq (cfg : Config) (s : St) :
    createStartLogs cfg s = .ok () (runSt (createStartLogs cfg) s) :=
  (createStartLogs_spec cfg s).1

theorem createStartLogs_events (cfg : Config) (s : St) :
    (runSt (createStartLogs cfg) s).events = s.events :=
  (createStartLogs_spec cfg s).2.1

theorem createStartLogs_id (cfg : Config) (s : St) :
    (runSt (createStartLogs cfg) s).task.id = s.task.id :=
  (createStartLogs_spec cfg s).2.2.1

theorem createStartLogs_email (cfg : Config) (s : St) :
    (runSt (createStartLogs cfg) s).task.email = s.task.email :=
  (createStartLogs_spec cfg s).2.2.2.1

theorem createStartLogs_password (cfg : Config) (s : St) :
    (runSt (createStartLogs cfg) s).task.password = s.task.password :=
  (createStartLogs_spec cfg s).2.2.2.2.1

theorem createStartLogs_status (cfg : Config) (s : St) :
    (runSt (createStartLogs cfg) s).task.status = s.task.status :=
  (createStartLogs_spec cfg s).2.2.2.2.2.1

theorem createStartLogs_notifyCount (cfg : Config) (s : St) :
    (runSt (createStartLogs cfg) s).notifyCount = s.notifyCount :=
  (createStartLogs_spec cfg s).2.2.2.2.2.2.2

attribute [irreducible] attemptSignup retryReset createStartLogs

set_option maxHeartbeats 1000000 in
/-- Full run of a task whose three attempts all fail with a soft error:
the task ends failed with `completedAt` stamped, and the full event
trace shows three attempts, no Session Store write and no gateway
call. -/
theorem runSoftFail3_spec {cfg : Config} (hdm : cfg.debugMode = true)
    (hsol : cfg.captchaSolverConfigured = false)
    (hq : ∀ k, cfg.callbackThrows k = none) (tid email : String) :
    (createReplitAccountRun cfg (fun _ => softFailEnv) tid email).task.status =
      .failed ∧
    (createReplitAccountRun cfg (fun _ => softFailEnv) tid email).task.completedAt =
      some cfg.now ∧
    (createReplitAccountRun cfg (fun _ => softFailEnv) tid email).events =
      [.statusSet .running, .notify,
       .attemptStart 1, .browserLaunch, .loadCookiesStore tid, .notify,
       .closePage, .closeContext, .closeBrowser,
       .notify, .sleep 9000,
       .attemptStart 2, .browserLaunch, .loadCookiesStore tid, .notify,
       .closePage, .closeContext, .closeBrowser,
       .notify, .sleep 9000,
       .attemptStart 3, .browserLaunch, .loadCookiesStore tid, .notify,
       .closePage, .closeContext, .closeBrowser,
       .statusSet .failed, .notify] := by
  have hn1 : ¬((1 : Nat) > 1) := by decide
  have hn2 : (2 : Nat) > 1 := by decide
  have hn3 : (3 : Nat) > 1 := by decide
  have core : ∃ sF,
      (do createStartLogs cfg; runAutomation cfg (fun _ => softFailEnv))
        (initSt tid email cfg.now) = .ok () sF ∧
      sF.task.status = .failed ∧ sF.task.completedAt = some cfg.now ∧
      sF.events = [.statusSet .running, .notify,
       .attemptStart 1, .browserLaunch, .loadCookiesStore tid, .notify,
       .closePage, .closeContext, .closeBrowser,
       .notify, .sleep 9000,
       .attemptStart 2, .browserLaunch, .loadCookiesStore tid, .notify,
       .closePage, .closeContext, .closeBrowser,
       .notify, .sleep 9000,
       .attemptStart 3, .browserLaunch, .loadCookiesStore tid, .notify,
       .closePage, .closeContext, .closeBrowser,
       .statusSet .failed, .notify] := by
    simp only [runAutomation, MAX_RETRIES, runAttempts,
      createStartLogs_eq, createStartLogs_events, createStartLogs_id,
      createStartLogs_email, createStartLogs_password, createStartLogs_status,
      attempt_softFail_eq hdm hsol hq, attempt_softFail_events hdm hsol hq,
      attempt_softFail_id hdm hsol hq, attempt_softFail_email hdm hsol hq,
      attempt_softFail_password hdm hsol hq, attempt_softFail_status hdm hsol hq,
      retryReset_eq hdm hq, retryReset_events hdm hq, retryReset_id hdm hq,
      retryReset_email hdm hq, retryReset_password hdm hq,
      retryReset_status hdm hq,
      addDebugLog, addLog, bind_app, pure_app, tryCatch_app, throwErr_app,
      getTask_app, modifyTask_app, emit_app, notifyUpdate_app, setStatus_app,
      hdm, hq, hn1, hn2, hn3,
      Bool.not_true, Bool.not_false, Bool.false_eq_true, Bool.true_eq_false,
      if_true, if_false, ite_true, ite_false]
    refine ⟨_, rfl, by simp, by simp, ?_⟩
    simp [attempt_softFail_events hdm hsol hq, attempt_softFail_id hdm hsol hq,
      retryReset_events hdm hq, retryReset_id hdm hq,
      createStartLogs_events, createStartLogs_id,
      initSt, createReplitAccountTask, softFailEnv, List.append_assoc]
  obtain ⟨sF, he, hst, hca, hev⟩ := core
  unfold createReplitAccountRun
  rw [he]
  exact ⟨hst, hca, hev⟩


theorem attempt_success_eq {cfg : Config} (hdm : cfg.debugMode = true)
    (hsol : cfg.captchaSolverConfigured = false) (n : Nat) (s : St) :
    attemptSignup cfg successEnv n s =
      .ok true (runSt (attemptSignup cfg successEnv n) s) :=
  (attempt_success_spec hdm hsol n s).1

theorem attempt_success_events {cfg : Config} (hdm : cfg.debugMode = true)
    (hsol : cfg.captchaSolverConfigured = false) (n : Nat) (s : St) :
    (runSt (attemptSignup cfg successEnv n) s).events =
      s.events ++ [.attemptStart n, .browserLaunch,
        .loadCookiesStore s.task.id, .sleep 5000, .sleep 3000,
        .gatewaySave s.task.email s.task.password true, .gatewayCookies 1,
        .closeContext, .closeBrowser] :=
  (attempt_success_spec hdm hsol n s).2.1

theorem attempt_success_id {cfg : Config} (hdm : cfg.debugMode = true)
    (hsol : cfg.captchaSolverConfigured = false) (n : Nat) (s : St) :
    (runSt (attemptSignup cfg successEnv n) s).task.id = s.task.id :=
  (attempt_success_spec hdm hsol n s).2.2.1

theorem attempt_success_email {cfg : Config} (hdm : cfg.debugMode = true)
    (hsol : cfg.captchaSolverConfigured = false) (n : Nat) (s : St) :
    (runSt (attemptSignup cfg successEnv n) s).task.email = s.task.email :=
  (attempt_success_spec hdm hsol n s).2.2.2.1

theorem attempt_success_password {cfg : Config} (hdm : cfg.debugMode = true)
    (hsol : cfg.captchaSolverConfigured = false) (n : Nat) (s : St) :
    (runSt (attemptSignup cfg successEnv n) s).task.password =
      s.task.password :=
  (attempt_success_spec hdm hsol n s).2.2.2.2.1

theorem attempt_success_status {cfg : Config} (hdm : cfg.debugMode = true)
    (hsol : cfg.captchaSolverConfigured = false) (n : Nat) (s : St) :
    (runSt (attemptSignup cfg successEnv n) s).task.status = s.task.status :=
  (attempt_success_spec hdm hsol n s).2.2.2.2.2.1

theorem attempt_success_notifyCount {cfg : Config} (hdm : cfg.debugMode = true)
    (hsol : cfg.captchaSolverConfigured = false) (n : Nat) (s : St) :
    (runSt (attemptSignup cfg successEnv n) s).notifyCount = s.notifyCount :=
  (attempt_success_spec hdm hsol n s).2.2.2.2.2.2

theorem attempt_redirectNoMail_eq {cfg : Config} (hdm : cfg.debugMode = true)
    (hsol : cfg.captchaSolverConfigured = false)
    (hq : ∀ k, cfg.callbackThrows k = none) (n : Nat) (s : St) :
    attemptSignup cfg redirectNoMailEnv n s =
      .ok true (runSt (attemptSignup cfg redirectNoMailEnv n) s) :=
  (attempt_redirectNoMail_spec hdm hsol hq n s).1

theorem attempt_redirectNoMail_events {cfg : Config}
    (hdm : cfg.debugMode = true)
    (hsol : cfg.captchaSolverConfigured = false)
    (hq : ∀ k, cfg.callbackThrows k = none) (n : Nat) (s : St) :
    (runSt (attemptSignup cfg redirectNoMailEnv n) s).events =
      s.events ++ [.attemptStart n, .browserLaunch,
        .loadCookiesStore s.task.id, .sleep 5000, .sleep 3000, .sleep 3000,
        .sleep 3000, .sleep 3000, .sleep 3000, .sleep 3000, .sleep 3000,
        .sleep 3000, .sleep 3000, .sleep 3000, .notify,
        .gatewaySave s.task.email s.task.password false, .gatewayCookies 1,
        .closeContext, .closeBrowser] :=
  (attempt_redirectNoMail_spec hdm hsol hq n s).2.1

theorem attempt_redirectNoMail_id {cfg : Config} (hdm : cfg.debugMode = true)
    (hsol : cfg.captchaSolverConfigured = false)
    (hq : ∀ k, cfg.callbackThrows k = none) (n : Nat) (s : St) :
    (runSt (attemptSignup cfg redirectNoMailEnv n) s).task.id = s.task.id :=
  (attempt_redirectNoMail_spec hdm hsol hq n s).2.2.1

theorem attempt_redirectNoMail_email {cfg : Config}
    (hdm : cfg.debugMode = true)
    (hsol : cfg.captchaSolverConfigured = false)
    (hq : ∀ k, cfg.callbackThrows k = none) (n : Nat) (s : St) :
    (runSt (attemptSignup cfg redirectNoMailEnv n) s).task.email =
      s.task.email :=
  (attempt_redirectNoMail_spec hdm hsol hq n s).2.2.2.1

theorem attempt_redirectNoMail_password {cfg : Config}
    (hdm : cfg.debugMode = true)
    (hsol : cfg.captchaSolverConfigured = false)
    (hq : ∀ k, cfg.callbackThrows k = none) (n : Nat) (s : St) :
    (runSt (attemptSignup cfg redirectNoMailEnv n) s).task.password =
      s.task.password :=
  (attempt_redirectNoMail_spec hdm hsol hq n s).2.2.2.2.1

theorem attempt_redirectNoMail_status {cfg : Config}
    (hdm : cfg.debugMode = true)
    (hsol : cfg.captchaSolverConfigured = false)
    (hq : ∀ k, cfg.callbackThrows k = none) (n : Nat) (s : St) :
    (runSt (attemptSignup cfg redirectNoMailEnv n) s).task.status =
      s.task.status :=
  (attempt_redirectNoMail_spec hdm hsol hq n s).2.2.2.2.2

set_option maxHeartbeats 1000000 in
/-- Full run of a task whose first attempt redirects cleanly and
verifies: the task ends completed after one attempt; the Session Store
is read once and never written; the gateway records `verified = true`. -/
theorem runSuccess1_spec {cfg : Config} {env : Nat → AttemptEnv}
    (hdm : cfg.debugMode = true)
    (hsol : cfg.captchaSolverConfigured = false)
    (hq : ∀ k, cfg.callbackThrows k = none)
    (henv1 : env 1 = successEnv) (tid email : String) :
    (createReplitAccountRun cfg env tid email).task.status = .completed ∧
    (createReplitAccountRun cfg env tid email).task.completedAt =
      some cfg.now ∧
    (createReplitAccountRun cfg env tid email).events =
      [.statusSet .running, .notify,
       .attemptStart 1, .browserLaunch, .loadCookiesStore tid,
       .sleep 5000, .sleep 3000, .gatewaySave email email true,
       .gatewayCookies 1, .closeContext, .closeBrowser,
       .statusSet .completed, .notify] := by
  have core : ∃ sF,
      (do createStartLogs cfg; runAutomation cfg env)
        (initSt tid email cfg.now) = .ok () sF ∧
      sF.task.status = .completed ∧ sF.task.completedAt = some cfg.now ∧
      sF.events = [.statusSet .running, .notify,
       .attemptStart 1, .browserLaunch, .loadCookiesStore tid,
       .sleep 5000, .sleep 3000, .gatewaySave email email true,
       .gatewayCookies 1, .closeContext, .closeBrowser,
       .statusSet .completed, .notify] := by
    simp only [runAutomation, MAX_RETRIES, runAttempts, henv1,
      createStartLogs_eq, createStartLogs_events, createStartLogs_id,
      createStartLogs_email, createStartLogs_password, createStartLogs_status,
      attempt_success_eq hdm hsol, attempt_success_events hdm hsol,
      attempt_success_id hdm hsol, attempt_success_email hdm hsol,
      attempt_success_password hdm hsol, attempt_success_status hdm hsol,
      addDebugLog, addLog, bind_app, pure_app, tryCatch_app, throwErr_app,
      getTask_app, modifyTask_app, emit_app, notifyUpdate_app, setStatus_app,
      hdm, hq, Nat.lt_irrefl, gt_iff_lt,
      Bool.not_true, Bool.not_false, Bool.false_eq_true, Bool.true_eq_false,
      if_true, if_false, ite_true, ite_false]
    refine ⟨_, rfl, by simp, by simp, ?_⟩
    simp [attempt_success_events hdm hsol, attempt_success_id hdm hsol,
      attempt_success_email hdm hsol, attempt_success_password hdm hsol,
      createStartLogs_events, createStartLogs_id, createStartLogs_email,
      createStartLogs_password,
      initSt, createReplitAccountTask, List.append_assoc]
  obtain ⟨sF, he, hst, hca, hev⟩ := core
  unfold createReplitAccountRun
  rw [he]
  exact ⟨hst, hca, hev⟩

set_option maxHeartbeats 1000000 in
/-- Full run of a task whose first attempt redirects cleanly but whose
verification mail never arrives: the task still ends completed after
one attempt, with a single gateway call recording `verified = false`. -/
theorem runRedirectNoMail1_spec {cfg : Config} {env : Nat → AttemptEnv}
    (hdm : cfg.debugMode = true)
    (hsol : cfg.captchaSolverConfigured = false)
    (hq : ∀ k, cfg.callbackThrows k = none)
    (henv1 : env 1 = redirectNoMailEnv) (tid email : String) :
    (createReplitAccountRun cfg env tid email).task.status = .completed ∧
    (createReplitAccountRun cfg env tid email).task.completedAt =
      some cfg.now ∧
    (createReplitAccountRun cfg env tid email).events =
      [.statusSet .running, .notify,
       .attemptStart 1, .browserLaunch, .loadCookiesStore tid,
       .sleep 5000, .sleep 3000, .sleep 3000, .sleep 3000, .sleep 3000,
       .sleep 3000, .sleep 3000, .sleep 3000, .sleep 3000, .sleep 3000,
       .sleep 3000, .notify, .gatewaySave email email false,
       .gatewayCookies 1, .closeContext, .closeBrowser,
       .statusSet .completed, .notify] := by
  have core : ∃ sF,
      (do createStartLogs cfg; runAutomation cfg env)
        (initSt tid email cfg.now) = .ok () sF ∧
      sF.task.status = .completed ∧ sF.task.completedAt = some cfg.now ∧
      sF.events = [.statusSet .running, .notify,
       .attemptStart 1, .browserLaunch, .loadCookiesStore tid,
       .sleep 5000, .sleep 3000, .sleep 3000, .sleep 3000, .sleep 3000,
       .sleep 3000, .sleep 3000, .sleep 3000, .sleep 3000, .sleep 3000,
       .sleep 3000, .notify, .gatewaySave email email false,
       .gatewayCookies 1, .closeContext, .closeBrowser,
       .statusSet .completed, .notify] := by
    simp only [runAutomation, MAX_RETRIES, runAttempts, henv1,
      createStartLogs_eq, createStartLogs_events, createStartLogs_id,
      createStartLogs_email, createStartLogs_password, createStartLogs_status,
      attempt_redirectNoMail_eq hdm hsol hq,
      attempt_redirectNoMail_events hdm hsol hq,
      attempt_redirectNoMail_id hdm hsol hq,
      attempt_redirectNoMail_email hdm hsol hq,
      attempt_redirectNoMail_password hdm hsol hq,
      attempt_redirectNoMail_status hdm hsol hq,
      addDebugLog, addLog, bind_app, pure_app, tryCatch_app, throwErr_app,
      getTask_app, modifyTask_app, emit_app, notifyUpdate_app, setStatus_app,
      hdm, hq, Nat.lt_irrefl, gt_iff_lt,
      Bool.not_true, Bool.not_false, Bool.false_eq_true, Bool.true_eq_false,
      if_true, if_false, ite_true, ite_false]
    refine ⟨_, rfl, by simp, by simp, ?_⟩
    simp [attempt_redirectNoMail_events hdm hsol hq,
      attempt_redirectNoMail_id hdm hsol hq,
      attempt_redirectNoMail_email hdm hsol hq,
      attempt_redirectNoMail_password hdm hsol hq,
      createStartLogs_events, createStartLogs_id, createStartLogs_email,
      createStartLogs_password,
      initSt, createReplitAccountTask, List.append_assoc]
  obtain ⟨sF, he, hst, hca, hev⟩ := core
  unfold createReplitAccountRun
  rw [he]
  exact ⟨hst, hca, hev⟩

set_option maxHeartbeats 1000000 in
/-- Full run with one soft failure and success on attempt 2. -/
theorem runSuccess2_spec {cfg : Config} {env : Nat → AttemptEnv}
    (hdm : cfg.debugMode = true)
    (hsol : cfg.captchaSolverConfigured = false)
    (hq : ∀ k, cfg.callbackThrows k = none)
    (henv1 : env 1 = softFailEnv) (henv2 : env 2 = successEnv)
    (tid email : String) :
    (createReplitAccountRun cfg env tid email).task.status = .completed ∧
    (createReplitAccountRun cfg env tid email).task.completedAt =
      some cfg.now ∧
    (createReplitAccountRun cfg env tid email).events =
      [.statusSet .running, .notify,
       .attemptStart 1, .browserLaunch, .loadCookiesStore tid, .notify,
       .closePage, .closeContext, .closeBrowser,
       .notify, .sleep 9000,
       .attemptStart 2, .browserLaunch, .loadCookiesStore tid,
       .sleep 5000, .sleep 3000, .gatewaySave email email true,
       .gatewayCookies 1, .closeContext, .closeBrowser,
       .statusSet .completed, .notify] := by
  have hn1 : ¬((1 : Nat) > 1) := by decide
  have hn2 : (2 : Nat) > 1 := by decide
  have core : ∃ sF,
      (do createStartLogs cfg; runAutomation cfg env)
        (initSt tid email cfg.now) = .ok () sF ∧
      sF.task.status = .completed ∧ sF.task.completedAt = some cfg.now ∧
      sF.events = [.statusSet .running, .notify,
       .attemptStart 1, .browserLaunch, .loadCookiesStore tid, .notify,
       .closePage, .closeContext, .closeBrowser,
       .notify, .sleep 9000,
       .attemptStart 2, .browserLaunch, .loadCookiesStore tid,
       .sleep 5000, .sleep 3000, .gatewaySave email email true,
       .gatewayCookies 1, .closeContext, .closeBrowser,
       .statusSet .completed, .notify] := by
    simp only [runAutomation, MAX_RETRIES, runAttempts, henv1, henv2,
      createStartLogs_eq, createStartLogs_events, createStartLogs_id,
      createStartLogs_email, createStartLogs_password, createStartLogs_status,
      attempt_softFail_eq hdm hsol hq, attempt_softFail_events hdm hsol hq,
      attempt_softFail_id hdm hsol hq, attempt_softFail_email hdm hsol hq,
      attempt_softFail_password hdm hsol hq, attempt_softFail_status hdm hsol hq,
      attempt_success_eq hdm hsol, attempt_success_events hdm hsol,
      attempt_success_id hdm hsol, attempt_success_email hdm hsol,
      attempt_success_password hdm hsol, attempt_success_status hdm hsol,
      retryReset_eq hdm hq, retryReset_events hdm hq, retryReset_id hdm hq,
      retryReset_email hdm hq, retryReset_password hdm hq,
      retryReset_status hdm hq,
      addDebugLog, addLog, bind_app, pure_app, tryCatch_app, throwErr_app,
      getTask_app, modifyTask_app, emit_app, notifyUpdate_app, setStatus_app,
      hdm, hq, hn1, hn2,
      Bool.not_true, Bool.not_false, Bool.false_eq_true, Bool.true_eq_false,
      if_true, if_false, ite_true, ite_false]
    refine ⟨_, rfl, by simp, by simp, ?_⟩
    simp [attempt_softFail_events hdm hsol hq, attempt_softFail_id hdm hsol hq,
      attempt_softFail_email hdm hsol hq, attempt_softFail_password hdm hsol hq,
      attempt_success_events hdm hsol, attempt_success_id hdm hsol,
      attempt_success_email hdm hsol, attempt_success_password hdm hsol,
      retryReset_events hdm hq, retryReset_id hdm hq,
      retryReset_email hdm hq, retryReset_password hdm hq,
      createStartLogs_events, createStartLogs_id, createStartLogs_email,
      createStartLogs_password,
      initSt, createReplitAccountTask, softFailEnv, successEnv,
      List.append_assoc]
  obtain ⟨sF, he, hst, hca, hev⟩ := core
  unfold createReplitAccountRun
  rw [he]
  exact ⟨hst, hca, hev⟩

set_option maxHeartbeats 1600000 in
/-- Full run with two soft failures and success on attempt 3. -/
theorem runSuccess3_spec {cfg : Config} {env : Nat → AttemptEnv}
    (hdm : cfg.debugMode = true)
    (hsol : cfg.captchaSolverConfigured = false)
    (hq : ∀ k, cfg.callbackThrows k = none)
    (henv1 : env 1 = softFailEnv) (henv2 : env 2 = softFailEnv)
    (henv3 : env 3 = successEnv) (tid email : String) :
    (createReplitAccountRun cfg env tid email).task.status = .completed ∧
    (createReplitAccountRun cfg env tid email).task.completedAt =
      some cfg.now ∧
    (createReplitAccountRun cfg env tid email).events =
      [.statusSet .running, .notify,
       .attemptStart 1, .browserLaunch, .loadCookiesStore tid, .notify,
       .closePage, .closeContext, .closeBrowser,
       .notify, .sleep 9000,
       .attemptStart 2, .browserLaunch, .loadCookiesStore tid, .notify,
       .closePage, .closeContext, .closeBrowser,
       .notify, .sleep 9000,
       .attemptStart 3, .browserLaunch, .loadCookiesStore tid,
       .sleep 5000, .sleep 3000, .gatewaySave email email true,
       .gatewayCookies 1, .closeContext, .closeBrowser,
       .statusSet .completed, .notify] := by
  have hn1 : ¬((1 : Nat) > 1) := by decide
  have hn2 : (2 : Nat) > 1 := by decide
  have hn3 : (3 : Nat) > 1 := by decide
  have core : ∃ sF,
      (do createStartLogs cfg; runAutomation cfg env)
        (initSt tid email cfg.now) = .ok () sF ∧
      sF.task.status = .completed ∧ sF.task.completedAt = some cfg.now ∧
      sF.events = [.statusSet .running, .notify,
       .attemptStart 1, .browserLaunch, .loadCookiesStore tid, .notify,
       .closePage, .closeContext, .closeBrowser,
       .notify, .sleep 9000,
       .attemptStart 2, .browserLaunch, .loadCookiesStore tid, .notify,
       .closePage, .closeContext, .closeBrowser,
       .notify, .sleep 9000,
       .attemptStart 3, .browserLaunch, .loadCookiesStore tid,
       .sleep 5000, .sleep 3000, .gatewaySave email email true,
       .gatewayCookies 1, .closeContext, .closeBrowser,
       .statusSet .completed, .notify] := by
    simp only [runAutomation, MAX_RETRIES, runAttempts, henv1, henv2, henv3,
      createStartLogs_eq, createStartLogs_events, createStartLogs_id,
      createStartLogs_email, createStartLogs_password, createStartLogs_status,
      attempt_softFail_eq hdm hsol hq, attempt_softFail_events hdm hsol hq,
      attempt_softFail_id hdm hsol hq, attempt_softFail_email hdm hsol hq,
      attempt_softFail_password hdm hsol hq, attempt_softFail_status hdm hsol hq,
      attempt_success_eq hdm hsol, attempt_success_events hdm hsol,
      attempt_success_id hdm hsol, attempt_success_email hdm hsol,
      attempt_success_password hdm hsol, attempt_success_status hdm hsol,
      retryReset_eq hdm hq, retryReset_events hdm hq, retryReset_id hdm hq,
      retryReset_email hdm hq, retryReset_password hdm hq,
      retryReset_status hdm hq,
      addDebugLog, addLog, bind_app, pure_app, tryCatch_app, throwErr_app,
      getTask_app, modifyTask_app, emit_app, notifyUpdate_app, setStatus_app,
      hdm, hq, hn1, hn2, hn3,
      Bool.not_true, Bool.not_false, Bool.false_eq_true, Bool.true_eq_false,
      if_true, if_false, ite_true, ite_false]
    refine ⟨_, rfl, by simp, by simp, ?_⟩
    simp [attempt_softFail_events hdm hsol hq, attempt_softFail_id hdm hsol hq,
      attempt_softFail_email hdm hsol hq, attempt_softFail_password hdm hsol hq,
      attempt_success_events hdm hsol, attempt_success_id hdm hsol,
      attempt_success_email hdm hsol, attempt_success_password hdm hsol,
      retryReset_events hdm hq, retryReset_id hdm hq,
      retryReset_email hdm hq, retryReset_password hdm hq,
      createStartLogs_events, createStartLogs_id, createStartLogs_email,
      createStartLogs_password,
      initSt, createReplitAccountTask, softFailEnv, successEnv,
      List.append_assoc]
  obtain ⟨sF, he, hst, hca, hev⟩ := core
  unfold createReplitAccountRun
  rw [he]
  exact ⟨hst, hca, hev⟩

/-! ### Claim C10 -/

/-- Claim C10: every task created through `createReplitAccount` stores
the email itself as the password (`password: email`), and carries
exactly the five steps `load`, `form`, `submit`, `redirect`,
`email_verify` in that order, all initially pending. -/
theorem c10_password_is_email_and_five_steps (taskId email : String) (now : Nat) :
    (createReplitAccountTask taskId email now).password = email ∧
    (createReplitAccountTask taskId email now).steps.map Step.id =
      ["load", "form", "submit", "redirect", "email_verify"] ∧
    (createReplitAccountTask taskId email now).steps.length = 5 ∧
    ((createReplitAccountTask taskId email now).steps.all
      (fun st => st.status == StepStatus.pending)) = true :=
  ⟨rfl, rfl, rfl, rfl⟩

/-! ### Claim C4 -/

/-- Attempt environments in which the first `k - 1` attempts fail with a
soft error and attempt `k` (and any later one) succeeds. -/
def stepEnv (k : Nat) : Nat → AttemptEnv :=
  fun i => if i < k then softFailEnv else successEnv

/-- Claim C4: under a debug-mode configuration with no captcha solver
and quiet subscribers, for every k with 1 <= k <= MAX_RETRIES, a run
whose attempts fail (soft error) before attempt k and succeed at
attempt k ends completed with completedAt stamped after exactly k
attempt starts; and a run in which every attempt fails ends failed
with completedAt stamped after exactly MAX_RETRIES attempt starts and
no further attempt. -/
theorem c4_retry_controller {cfg : Config} (hdm : cfg.debugMode = true)
    (hsol : cfg.captchaSolverConfigured = false)
    (hq : ∀ j, cfg.callbackThrows j = none)
    (k : Nat) (h1 : 1 ≤ k) (h2 : k ≤ MAX_RETRIES) (tid email : String) :
    ((createReplitAccountRun cfg (stepEnv k) tid email).task.status =
        .completed ∧
     (createReplitAccountRun cfg (stepEnv k) tid email).task.completedAt =
        some cfg.now ∧
     ((createReplitAccountRun cfg (stepEnv k) tid email).events.filter
        isAttemptStart).length = k) ∧
    ((createReplitAccountRun cfg (fun _ => softFailEnv) tid email).task.status =
        .failed ∧
     (createReplitAccountRun cfg (fun _ => softFailEnv)
        tid email).task.completedAt = some cfg.now ∧
     ((createReplitAccountRun cfg (fun _ => softFailEnv) tid email).events.filter
        isAttemptStart).length = MAX_RETRIES) := by
  have hfail := runSoftFail3_spec hdm hsol hq tid email
  have hfailPart :
      (createReplitAccountRun cfg (fun _ => softFailEnv) tid email).task.status =
        .failed ∧
      (createReplitAccountRun cfg (fun _ => softFailEnv)
        tid email).task.completedAt = some cfg.now ∧
      ((createReplitAccountRun cfg (fun _ => softFailEnv) tid email).events.filter
        isAttemptStart).length = MAX_RETRIES := by
    refine ⟨hfail.1, hfail.2.1, ?_⟩
    rw [hfail.2.2]
    simp [List.filter, isAttemptStart, MAX_RETRIES]
  simp only [MAX_RETRIES] at h2
  interval_cases k
  · have hs := runSuccess1_spec hdm hsol hq
      (show stepEnv 1 1 = successEnv by simp [stepEnv]) tid email
    refine ⟨⟨hs.1, hs.2.1, ?_⟩, hfailPart⟩
    rw [hs.2.2]
    simp [List.filter, isAttemptStart]
  · have hs := runSuccess2_spec hdm hsol hq
      (show stepEnv 2 1 = softFailEnv by simp [stepEnv])
      (show stepEnv 2 2 = successEnv by simp [stepEnv]) tid email
    refine ⟨⟨hs.1, hs.2.1, ?_⟩, hfailPart⟩
    rw [hs.2.2]
    simp [List.filter, isAttemptStart]
  · have hs := runSuccess3_spec hdm hsol hq
      (show stepEnv 3 1 = softFailEnv by simp [stepEnv])
      (show stepEnv 3 2 = softFailEnv by simp [stepEnv])
      (show stepEnv 3 3 = successEnv by simp [stepEnv]) tid email
    refine ⟨⟨hs.1, hs.2.1, ?_⟩, hfailPart⟩
    rw [hs.2.2]
    simp [List.filter, isAttemptStart]

/-- Witness for C4 at k = 2 with the quiet debug configuration. -/
theorem c4_retry_controller_witness :
    quietCfg.debugMode = true ∧
    quietCfg.captchaSolverConfigured = false ∧
    (∀ j, quietCfg.callbackThrows j = none) ∧
    1 ≤ 2 ∧ 2 ≤ MAX_RETRIES ∧
    (((createReplitAccountRun quietCfg (stepEnv 2) "t1" "a@b.c").task.status =
        .completed ∧
      (createReplitAccountRun quietCfg (stepEnv 2) "t1" "a@b.c").task.completedAt =
        some quietCfg.now ∧
      ((createReplitAccountRun quietCfg (stepEnv 2) "t1" "a@b.c").events.filter
        isAttemptStart).length = 2) ∧
     ((createReplitAccountRun quietCfg (fun _ => softFailEnv)
        "t1" "a@b.c").task.status = .failed ∧
      (createReplitAccountRun quietCfg (fun _ => softFailEnv)
        "t1" "a@b.c").task.completedAt = some quietCfg.now ∧
      ((createReplitAccountRun quietCfg (fun _ => softFailEnv)
        "t1" "a@b.c").events.filter isAttemptStart).length = MAX_RETRIES)) :=
  ⟨rfl, rfl, fun _ => rfl, by decide, by decide,
   c4_retry_controller rfl rfl (fun _ => rfl) 2 (by decide) (by decide)
     "t1" "a@b.c"⟩

/-! ### Claim C1 -/

/-- Counterexample to the claim that a redirect-classified attempt
returns the boolean result of the email-verification phase: with a
clean redirect but a mailbox that never yields a matching message, the
verification phase records `verified = false` at the gateway, yet the
attempt returns `true` and the whole run ends `completed` on the
strength of that attempt. -/
theorem c1_counterexample :
    (∃ s1, attemptSignup quietCfg redirectNoMailEnv 1
        (initSt "t1" "a@b.c" 1000) = .ok true s1) ∧
    (createReplitAccountRun quietCfg (fun _ => redirectNoMailEnv)
        "t1" "a@b.c").task.status = .completed ∧
    ((createReplitAccountRun quietCfg (fun _ => redirectNoMailEnv)
        "t1" "a@b.c").events.filter isGatewaySave) =
      [.gatewaySave "a@b.c" "a@b.c" false] := by
  obtain ⟨hst, -, hev⟩ := @runRedirectNoMail1_spec quietCfg
    (fun _ => redirectNoMailEnv) rfl rfl (fun _ => rfl) rfl "t1" "a@b.c"
  refine ⟨⟨_, (@attempt_redirectNoMail_spec quietCfg rfl rfl
    (fun _ => rfl) 1 (initSt "t1" "a@b.c" 1000)).1⟩, hst, ?_⟩
  rw [hev]
  simp [List.filter, isGatewaySave]

/-- Claim C1 (amended): a redirect-classified attempt returns `true`
unconditionally, independent of the email-verification outcome.  With
a mailbox that never yields, the gateway records `verified = false`
yet the attempt returns `true`; with a mailbox that answers, the
gateway records `verified = true` and the attempt returns the same
`true`. -/
theorem c1_redirect_attempt_always_true {cfg : Config}
    (hdm : cfg.debugMode = true)
    (hsol : cfg.captchaSolverConfigured = false)
    (hq : ∀ j, cfg.callbackThrows j = none) (n : Nat) (s : St) :
    attemptSignup cfg redirectNoMailEnv n s =
      .ok true (runSt (attemptSignup cfg redirectNoMailEnv n) s) ∧
    ((runSt (attemptSignup cfg redirectNoMailEnv n) s).events.filter
        isGatewaySave) =
      s.events.filter isGatewaySave ++
        [.gatewaySave s.task.email s.task.password false] ∧
    attemptSignup cfg successEnv n s =
      .ok true (runSt (attemptSignup cfg successEnv n) s) ∧
    ((runSt (attemptSignup cfg successEnv n) s).events.filter
        isGatewaySave) =
      s.events.filter isGatewaySave ++
        [.gatewaySave s.task.email s.task.password true] := by
  refine ⟨(attempt_redirectNoMail_spec hdm hsol hq n s).1, ?_,
    (attempt_success_spec hdm hsol n s).1, ?_⟩
  · rw [attempt_redirectNoMail_events hdm hsol hq n s]
    simp [List.filter_append, List.filter, isGatewaySave]
  · rw [attempt_success_events hdm hsol n s]
    simp [List.filter_append, List.filter, isGatewaySave]

/-- Witness for the amended C1 at a concrete configuration and state. -/
theorem c1_redirect_attempt_always_true_witness :
    quietCfg.debugMode = true ∧
    quietCfg.captchaSolverConfigured = false ∧
    (∀ j, quietCfg.callbackThrows j = none) ∧
    (attemptSignup quietCfg redirectNoMailEnv 1 (initSt "t1" "a@b.c" 1000) =
      .ok true (runSt (attemptSignup quietCfg redirectNoMailEnv 1)
        (initSt "t1" "a@b.c" 1000)) ∧
     ((runSt (attemptSignup quietCfg redirectNoMailEnv 1)
        (initSt "t1" "a@b.c" 1000)).events.filter isGatewaySave) =
      (initSt "t1" "a@b.c" 1000).events.filter isGatewaySave ++
        [.gatewaySave (initSt "t1" "a@b.c" 1000).task.email
          (initSt "t1" "a@b.c" 1000).task.password false] ∧
     attemptSignup quietCfg successEnv 1 (initSt "t1" "a@b.c" 1000) =
      .ok true (runSt (attemptSignup quietCfg successEnv 1)
        (initSt "t1" "a@b.c" 1000)) ∧
     ((runSt (attemptSignup quietCfg successEnv 1)
        (initSt "t1" "a@b.c" 1000)).events.filter isGatewaySave) =
      (initSt "t1" "a@b.c" 1000).events.filter isGatewaySave ++
        [.gatewaySave (initSt "t1" "a@b.c" 1000).task.email
          (initSt "t1" "a@b.c" 1000).task.password true]) :=
  ⟨rfl, rfl, fun _ => rfl,
   c1_redirect_attempt_always_true rfl rfl (fun _ => rfl) 1
     (initSt "t1" "a@b.c" 1000)⟩

/-! ### Claim C2 -/

/-- Counterexample to the claim that the persistence gateway is invoked
exactly once per task regardless of how the task ends: a task whose
three attempts all fail with a soft error ends `failed` having never
invoked the gateway. -/
theorem c2_counterexample :
    (createReplitAccountRun quietCfg (fun _ => softFailEnv)
        "t2" "b@c.d").task.status = .failed ∧
    ((createReplitAccountRun quietCfg (fun _ => softFailEnv)
        "t2" "b@c.d").events.filter isGatewaySave) = [] := by
  obtain ⟨hst, -, hev⟩ := @runSoftFail3_spec quietCfg rfl rfl (fun _ => rfl)
    "t2" "b@c.d"
  refine ⟨hst, ?_⟩
  rw [hev]
  simp [List.filter, isGatewaySave]

/-- Claim C2 (amended): the gateway is invoked exactly once per run of
the email-verification phase, at its end, with the verified flag
reflecting the outcome (`false` on polling exhaustion, `true` on a
verified link); but a task whose attempts never reach the verification
phase ends `failed` with no gateway invocation at all. -/
theorem c2_gateway_once_per_verify {cfg : Config}
    (hdm : cfg.debugMode = true)
    (hsol : cfg.captchaSolverConfigured = false)
    (hq : ∀ j, cfg.callbackThrows j = none) (s : St) (tid email : String) :
    ((runSt (verifyEmail cfg neverMailVerifyEnv ["sid-signup"]) s).events.filter
        isGatewaySave) =
      s.events.filter isGatewaySave ++
        [.gatewaySave s.task.email s.task.password false] ∧
    ((runSt (verifyEmail cfg goodVerifyEnv ["sid-signup"]) s).events.filter
        isGatewaySave) =
      s.events.filter isGatewaySave ++
        [.gatewaySave s.task.email s.task.password true] ∧
    (createReplitAccountRun cfg (fun _ => softFailEnv) tid email).task.status =
      .failed ∧
    ((createReplitAccountRun cfg (fun _ => softFailEnv)
        tid email).events.filter isGatewaySave) = [] := by
  obtain ⟨hst, -, hev⟩ := runSoftFail3_spec hdm hsol hq tid email
  refine ⟨?_, ?_, hst, ?_⟩
  · rw [verify_neverMail_events hdm hq s]
    simp [List.filter_append, List.filter, isGatewaySave]
  · rw [verify_good_events hdm ["sid-signup"] s]
    simp [List.filter_append, List.filter, isGatewaySave]
  · rw [hev]
    simp [List.filter, isGatewaySave]

/-- Witness for the amended C2 at a concrete configuration and state. -/
theorem c2_gateway_once_per_verify_witness :
    quietCfg.debugMode = true ∧
    quietCfg.captchaSolverConfigured = false ∧
    (∀ j, quietCfg.callbackThrows j = none) ∧
    (((runSt (verifyEmail quietCfg neverMailVerifyEnv ["sid-signup"])
        (initSt "t2" "b@c.d" 1000)).events.filter isGatewaySave) =
      (initSt "t2" "b@c.d" 1000).events.filter isGatewaySave ++
        [.gatewaySave (initSt "t2" "b@c.d" 1000).task.email
          (initSt "t2" "b@c.d" 1000).task.password false] ∧
     ((runSt (verifyEmail quietCfg goodVerifyEnv ["sid-signup"])
        (initSt "t2" "b@c.d" 1000)).events.filter isGatewaySave) =
      (initSt "t2" "b@c.d" 1000).events.filter isGatewaySave ++
        [.gatewaySave (initSt "t2" "b@c.d" 1000).task.email
          (initSt "t2" "b@c.d" 1000).task.password true] ∧
     (createReplitAccountRun quietCfg (fun _ => softFailEnv)
        "t2" "b@c.d").task.status = .failed ∧
     ((createReplitAccountRun quietCfg (fun _ => softFailEnv)
        "t2" "b@c.d").events.filter isGatewaySave) = []) :=
  ⟨rfl, rfl, fun _ => rfl,
   c2_gateway_once_per_verify rfl rfl (fun _ => rfl)
     (initSt "t2" "b@c.d" 1000) "t2" "b@c.d"⟩

/-! ### Claim C5 -/

/-- Counterexample to the claim that cookies are persisted to the
Session Store immediately after a successful signup submission: a run
whose first attempt redirects cleanly and verifies ends `completed`
with the gateway recording `verified = true`, yet its trace contains
no Session Store write at all. -/
theorem c5_counterexample :
    (createReplitAccountRun quietCfg (fun _ => successEnv)
        "t5" "e@f.g").task.status = .completed ∧
    ((createReplitAccountRun quietCfg (fun _ => successEnv)
        "t5" "e@f.g").events.filter isGatewaySave) =
      [.gatewaySave "e@f.g" "e@f.g" true] ∧
    ((createReplitAccountRun quietCfg (fun _ => successEnv)
        "t5" "e@f.g").events.filter isSaveCookiesStore) = [] := by
  obtain ⟨hst, -, hev⟩ := @runSuccess1_spec quietCfg (fun _ => successEnv)
    rfl rfl (fun _ => rfl) rfl "t5" "e@f.g"
  refine ⟨hst, ?_, ?_⟩ <;> rw [hev] <;>
    simp [List.filter, isGatewaySave, isSaveCookiesStore]

/-- Claim C5 (amended): the Session Store is read once at the start of
every attempt for the task id; the clean-redirect path performs no
Session Store write, and the only write happens on the solved-captcha
resubmission path. -/
theorem c5_session_store {cfg cfg2 : Config}
    (hdm : cfg.debugMode = true)
    (hsol : cfg.captchaSolverConfigured = false)
    (hq : ∀ j, cfg.callbackThrows j = none)
    (hdm2 : cfg2.debugMode = true)
    (hsol2 : cfg2.captchaSolverConfigured = true)
    (hq2 : ∀ j, cfg2.callbackThrows j = none) (n : Nat) (s : St) :
    ((runSt (attemptSignup cfg softFailEnv n) s).events.filter
        isLoadCookiesStore) =
      s.events.filter isLoadCookiesStore ++ [.loadCookiesStore s.task.id] ∧
    ((runSt (attemptSignup cfg successEnv n) s).events.filter
        isLoadCookiesStore) =
      s.events.filter isLoadCookiesStore ++ [.loadCookiesStore s.task.id] ∧
    ((runSt (attemptSignup cfg2 captchaSolvedEnv n) s).events.filter
        isLoadCookiesStore) =
      s.events.filter isLoadCookiesStore ++ [.loadCookiesStore s.task.id] ∧
    ((runSt (attemptSignup cfg successEnv n) s).events.filter
        isSaveCookiesStore) = s.events.filter isSaveCookiesStore ∧
    ((runSt (attemptSignup cfg2 captchaSolvedEnv n) s).events.filter
        isSaveCookiesStore) =
      s.events.filter isSaveCookiesStore ++ [.saveCookiesStore s.task.id] := by
  refine ⟨?_, ?_, ?_, ?_, ?_⟩
  · rw [attempt_softFail_events hdm hsol hq n s]
    simp [List.filter_append, List.filter, isLoadCookiesStore]
  · rw [attempt_success_events hdm hsol n s]
    simp [List.filter_append, List.filter, isLoadCookiesStore]
  · rw [(attempt_captchaSolved_spec hdm2 hsol2 hq2 n s).2.1]
    simp [List.filter_append, List.filter, isLoadCookiesStore]
  · rw [attempt_success_events hdm hsol n s]
    simp [List.filter_append, List.filter, isSaveCookiesStore]
  · rw [(attempt_captchaSolved_spec hdm2 hsol2 hq2 n s).2.1]
    simp [List.filter_append, List.filter, isSaveCookiesStore]

/-- Witness for the amended C5 at concrete configurations and state. -/
theorem c5_session_store_witness :
    quietCfg.debugMode = true ∧
    quietCfg.captchaSolverConfigured = false ∧
    (∀ j, quietCfg.callbackThrows j = none) ∧
    solverCfg.debugMode = true ∧
    solverCfg.captchaSolverConfigured = true ∧
    (∀ j, solverCfg.callbackThrows j = none) ∧
    (((runSt (attemptSignup quietCfg softFailEnv 1)
        (initSt "t5" "e@f.g" 1000)).events.filter isLoadCookiesStore) =
      (initSt "t5" "e@f.g" 1000).events.filter isLoadCookiesStore ++
        [.loadCookiesStore (initSt "t5" "e@f.g" 1000).task.id] ∧
     ((runSt (attemptSignup quietCfg successEnv 1)
        (initSt "t5" "e@f.g" 1000)).events.filter isLoadCookiesStore) =
      (initSt "t5" "e@f.g" 1000).events.filter isLoadCookiesStore ++
        [.loadCookiesStore (initSt "t5" "e@f.g" 1000).task.id] ∧
     ((runSt (attemptSignup solverCfg captchaSolvedEnv 1)
        (initSt "t5" "e@f.g" 1000)).events.filter isLoadCookiesStore) =
      (initSt "t5" "e@f.g" 1000).events.filter isLoadCookiesStore ++
        [.loadCookiesStore (initSt "t5" "e@f.g" 1000).task.id] ∧
     ((runSt (attemptSignup quietCfg successEnv 1)
        (initSt "t5" "e@f.g" 1000)).events.filter isSaveCookiesStore) =
      (initSt "t5" "e@f.g" 1000).events.filter isSaveCookiesStore ∧
     ((runSt (attemptSignup solverCfg captchaSolvedEnv 1)
        (initSt "t5" "e@f.g" 1000)).events.filter isSaveCookiesStore) =
      (initSt "t5" "e@f.g" 1000).events.filter isSaveCookiesStore ++
        [.saveCookiesStore (initSt "t5" "e@f.g" 1000).task.id]) :=
  ⟨rfl, rfl, fun _ => rfl, rfl, rfl, fun _ => rfl,
   c5_session_store rfl rfl (fun _ => rfl) rfl rfl (fun _ => rfl) 1
     (initSt "t5" "e@f.g" 1000)⟩

/-! ### Claim C9 -/

/-- Claim C9: when a CAPTCHA marker is detected and no solving service
is configured, the resolver returns `null` from any state, and the
attempt returns `false` without throwing, with page, context and
browser all closed on that path. -/
theorem c9_captcha_no_solver {cfg : Config} {aenv : AttemptEnv}
    (hdm : cfg.debugMode = true)
    (hsol : cfg.captchaSolverConfigured = false)
    (hq : ∀ j, cfg.callbackThrows j = none)
    (hcap : captchaPatternsTest aenv.pageContent = true)
    (hnav : aenv.navError = none)
    (hemail : aenv.emailInputFound = true)
    (hpw : aenv.passwordInputFound = true)
    (hbtn : aenv.createButtonFound = true)
    (n : Nat) (s : St) :
    (∀ s0, ∃ s1, solveCaptcha cfg aenv s0 = .ok none s1) ∧
    attemptSignup cfg aenv n s =
      .ok false (runSt (attemptSignup cfg aenv n) s) ∧
    (runSt (attemptSignup cfg aenv n) s).events =
      s.events ++ [.attemptStart n, .browserLaunch,
        .loadCookiesStore s.task.id, .notify, .closePage, .closeContext,
        .closeBrowser] ∧
    (runSt (attemptSignup cfg aenv n) s).pageOpen = false ∧
    (runSt (attemptSignup cfg aenv n) s).contextOpen = false ∧
    (runSt (attemptSignup cfg aenv n) s).browserOpen = false := by
  refine ⟨?_, attempt_captchaNoSolver_spec hdm hsol hq hcap hnav hemail
    hpw hbtn n s⟩
  intro s0
  refine ⟨runSt (solveCaptcha cfg aenv) s0, ?_⟩
  unfold runSt
  simp only [solveCaptcha, addDebugLog, resSt, bind_app, pure_app,
    modifyTask_app, hsol, hdm, Bool.not_false, if_true, ite_true]

/-- Witness for C9 at the concrete captcha environment. -/
theorem c9_captcha_no_solver_witness :
    quietCfg.debugMode = true ∧
    quietCfg.captchaSolverConfigured = false ∧
    (∀ j, quietCfg.callbackThrows j = none) ∧
    captchaPatternsTest captchaEnv.pageContent = true ∧
    captchaEnv.navError = none ∧
    captchaEnv.emailInputFound = true ∧
    captchaEnv.passwordInputFound = true ∧
    captchaEnv.createButtonFound = true ∧
    ((∀ s0, ∃ s1, solveCaptcha quietCfg captchaEnv s0 = .ok none s1) ∧
     attemptSignup quietCfg captchaEnv 1 (initSt "t9" "h@i.j" 1000) =
      .ok false (runSt (attemptSignup quietCfg captchaEnv 1)
        (initSt "t9" "h@i.j" 1000)) ∧
     (runSt (attemptSignup quietCfg captchaEnv 1)
        (initSt "t9" "h@i.j" 1000)).events =
      (initSt "t9" "h@i.j" 1000).events ++ [.attemptStart 1, .browserLaunch,
        .loadCookiesStore (initSt "t9" "h@i.j" 1000).task.id, .notify,
        .closePage, .closeContext, .closeBrowser] ∧
     (runSt (attemptSignup quietCfg captchaEnv 1)
        (initSt "t9" "h@i.j" 1000)).pageOpen = false ∧
     (runSt (attemptSignup quietCfg captchaEnv 1)
        (initSt "t9" "h@i.j" 1000)).contextOpen = false ∧
     (runSt (attemptSignup quietCfg captchaEnv 1)
        (initSt "t9" "h@i.j" 1000)).browserOpen = false) :=
  ⟨rfl, rfl, fun _ => rfl, by decide, rfl, rfl, rfl, rfl,
   c9_captcha_no_solver rfl rfl (fun _ => rfl) (by decide) rfl rfl rfl rfl
     1 (initSt "t9" "h@i.j" 1000)⟩

/-! ### Claim C6 -/

/-- Counterexample to the claim that every task mutation synchronously
invokes the subscriber callbacks: `updateStep` flips the `load` step
from pending to completed — a step status transition — yet records no
notification and leaves the notification counter at zero; likewise
`addDebugLog` appends a debug line without notifying. -/
theorem c6_counterexample :
    (∃ s1, updateStep "load" .completed none (initSt "t6" "k@l.m" 1000) =
        .ok () s1 ∧
      getStepStatus (initSt "t6" "k@l.m" 1000).task.steps "load" =
        some .pending ∧
      getStepStatus s1.task.steps "load" = some .completed ∧
      s1.events.filter isNotify = [] ∧
      s1.notifyCount = 0) ∧
    (∃ s2, addDebugLog quietCfg "dbg" (initSt "t6" "k@l.m" 1000) =
        .ok () s2 ∧
      s2.task.debugLogs = ["dbg"] ∧
      s2.events.filter isNotify = [] ∧
      s2.notifyCount = 0) := by
  refine ⟨⟨_, rfl, by decide, by decide, by decide, by decide⟩,
    ⟨_, rfl, by decide, by decide, by decide⟩⟩

/-- Claim C6 (amended): only `addLog` notifies subscribers — it appends
the line and synchronously delivers exactly one notification before
returning (the notification is recorded even when a callback throws);
`updateStep` and `addDebugLog` mutate the task without invoking any
callback, and status assignments notify only through the separate
`notifyUpdate` calls that follow them. -/
theorem c6_notification_discipline (cfg : Config) (s : St) (log : String)
    (sid : String) (stv : StepStatus) :
    (resSt (addLog cfg log s)).events = s.events ++ [.notify] ∧
    (resSt (addLog cfg log s)).notifyCount = s.notifyCount + 1 ∧
    (resSt (addLog cfg log s)).task.logs = s.task.logs ++ [log] ∧
    (resSt (updateStep sid stv none s)).events = s.events ∧
    (resSt (updateStep sid stv none s)).notifyCount = s.notifyCount ∧
    (resSt (addDebugLog cfg log s)).events = s.events ∧
    (resSt (addDebugLog cfg log s)).notifyCount = s.notifyCount := by
  have hdbg : (resSt (addDebugLog cfg log s)).events = s.events ∧
      (resSt (addDebugLog cfg log s)).notifyCount = s.notifyCount := by
    by_cases hdm : cfg.debugMode = true <;>
      simp [addDebugLog, hdm, modifyTask_app, pure_app, resSt]
  cases h : cfg.callbackThrows s.notifyCount <;>
    refine ⟨?_, ?_, ?_, rfl, rfl, hdbg.1, hdbg.2⟩ <;>
    simp [addLog, bind_app, modifyTask_app, notifyUpdate_app, h, resSt]

/-! ### Claim C8 -/

/-- A task state in mid-run: the `load` step completed, the `submit`
step failed, with leftover error messages and screenshots. -/
def c8State : St :=
  { initSt "t8" "n@o.p" 1000 with
    task := { (initSt "t8" "n@o.p" 1000).task with
      steps := setFirstStep
        (setFirstStep initialSteps "load" .completed) "submit" .failed,
      errorMessages := ["Reessayer demande"],
      screenshots := ["shot1"] } }

/-- Counterexample to the parenthetical that the default retry-reset
policy resets all steps: starting from a state whose `load` step is
completed and whose `submit` step is failed, the reset turns `submit`
back to pending but leaves `load` completed. -/
theorem c8_counterexample :
    ∃ s1, retryReset quietCfg softFailEnv 2 c8State = .ok () s1 ∧
      getStepStatus c8State.task.steps "load" = some .completed ∧
      getStepStatus c8State.task.steps "submit" = some .failed ∧
      getStepStatus s1.task.steps "load" = some .completed ∧
      getStepStatus s1.task.steps "submit" = some .pending := by
  have h := @retryReset_spec quietCfg rfl (fun _ => rfl) softFailEnv 2 c8State
  refine ⟨_, h.1, by decide, by decide, ?_, ?_⟩ <;>
    rw [h.2.2.1] <;> decide

/-- Claim C8 (amended): the retry reset before attempt k > 1 resets
exactly the failed steps to pending (completed and running steps are
preserved), empties errorMessages and screenshots, trims debugLogs to
the bootstrap whitelist, waits a randomized backoff of
`rand % 8000 + 5000` ms — between 5000 and 12999 ms — and leaves id,
email, password, logs, createdAt, status and completedAt untouched. -/
theorem c8_retry_reset_frame {cfg : Config} (hdm : cfg.debugMode = true)
    (hq : ∀ j, cfg.callbackThrows j = none) (aenv : AttemptEnv)
    (attempt : Nat) (s : St) :
    retryReset cfg aenv attempt s =
      .ok () (runSt (retryReset cfg aenv attempt) s) ∧
    (runSt (retryReset cfg aenv attempt) s).task.steps =
      s.task.steps.map (fun st =>
        if st.status = .failed then { st with status := .pending } else st) ∧
    (runSt (retryReset cfg aenv attempt) s).task.errorMessages = [] ∧
    (runSt (retryReset cfg aenv attempt) s).task.screenshots = [] ∧
    (runSt (retryReset cfg aenv attempt) s).task.debugLogs =
      ((s.task.debugLogs ++
        ["\n(retry) Tentative " ++ toString attempt ++ "/" ++
          toString MAX_RETRIES,
         "(wait) Pause de " ++
          toString ((aenv.backoffRand % 8000 + 5000) / 1000) ++
          "s..."]).filter debugKeep) ∧
    (runSt (retryReset cfg aenv attempt) s).events =
      s.events ++ [.notify, .sleep (aenv.backoffRand % 8000 + 5000)] ∧
    5000 ≤ aenv.backoffRand % 8000 + 5000 ∧
    aenv.backoffRand % 8000 + 5000 < 13000 ∧
    (runSt (retryReset cfg aenv attempt) s).task.id = s.task.id ∧
    (runSt (retryReset cfg aenv attempt) s).task.email = s.task.email ∧
    (runSt (retryReset cfg aenv attempt) s).task.password =
      s.task.password ∧
    (runSt (retryReset cfg aenv attempt) s).task.logs = s.task.logs ∧
    (runSt (retryReset cfg aenv attempt) s).task.createdAt =
      s.task.createdAt ∧
    (runSt (retryReset cfg aenv attempt) s).task.status = s.task.status ∧
    (runSt (retryReset cfg aenv attempt) s).task.completedAt =
      s.task.completedAt := by
  have h := retryReset_spec hdm hq aenv attempt s
  refine ⟨h.1, ?_, h.2.2.2.1, h.2.2.2.2.1, h.2.2.2.2.2.1, h.2.1,
    by omega, by omega, h.2.2.2.2.2.2.1, h.2.2.2.2.2.2.2.1,
    h.2.2.2.2.2.2.2.2.1, h.2.2.2.2.2.2.2.2.2.1, h.2.2.2.2.2.2.2.2.2.2.1,
    h.2.2.2.2.2.2.2.2.2.2.2.1, h.2.2.2.2.2.2.2.2.2.2.2.2⟩
  rw [h.2.2.1]
  rfl

/-- Witness for the amended C8 at a concrete configuration, environment,
attempt number and state. -/
theorem c8_retry_reset_frame_witness :
    quietCfg.debugMode = true ∧
    (∀ j, quietCfg.callbackThrows j = none) ∧
    (retryReset quietCfg softFailEnv 2 c8State =
      .ok () (runSt (retryReset quietCfg softFailEnv 2) c8State) ∧
    (runSt (retryReset quietCfg softFailEnv 2) c8State).task.steps =
      c8State.task.steps.map (fun st =>
        if st.status = .failed then { st with status := .pending } else st) ∧
    (runSt (retryReset quietCfg softFailEnv 2) c8State).task.errorMessages =
      [] ∧
    (runSt (retryReset quietCfg softFailEnv 2) c8State).task.screenshots =
      [] ∧
    (runSt (retryReset quietCfg softFailEnv 2) c8State).task.debugLogs =
      ((c8State.task.debugLogs ++
        ["\n(retry) Tentative " ++ toString 2 ++ "/" ++
          toString MAX_RETRIES,
         "(wait) Pause de " ++
          toString ((softFailEnv.backoffRand % 8000 + 5000) / 1000) ++
          "s..."]).filter debugKeep) ∧
    (runSt (retryReset quietCfg softFailEnv 2) c8State).events =
      c8State.events ++
        [.notify, .sleep (softFailEnv.backoffRand % 8000 + 5000)] ∧
    5000 ≤ softFailEnv.backoffRand % 8000 + 5000 ∧
    softFailEnv.backoffRand % 8000 + 5000 < 13000 ∧
    (runSt (retryReset quietCfg softFailEnv 2) c8State).task.id =
      c8State.task.id ∧
    (runSt (retryReset quietCfg softFailEnv 2) c8State).task.email =
      c8State.task.email ∧
    (runSt (retryReset quietCfg softFailEnv 2) c8State).task.password =
      c8State.task.password ∧
    (runSt (retryReset quietCfg softFailEnv 2) c8State).task.logs =
      c8State.task.logs ∧
    (runSt (retryReset quietCfg softFailEnv 2) c8State).task.createdAt =
      c8State.task.createdAt ∧
    (runSt (retryReset quietCfg softFailEnv 2) c8State).task.status =
      c8State.task.status ∧
    (runSt (retryReset quietCfg softFailEnv 2) c8State).task.completedAt =
      c8State.task.completedAt) :=
  ⟨rfl, fun _ => rfl,
   c8_retry_reset_frame rfl (fun _ => rfl) softFailEnv 2 c8State⟩

/-! ### Claim C7 -/

/-- Counterexample to the claim that every task's attempt execution
runs while holding a Worker Pool permit: the single-account route
calls `createReplitAccount` directly, so a full run launches a browser
(one `browserLaunch` event) without ever acquiring a pool permit (no
`poolAcquire` event). -/
theorem c7_counterexample :
    ((createReplitAccountRun quietCfg (fun _ => successEnv)
        "t7" "g@h.i").events.filter isPoolAcquire) = [] ∧
    ((createReplitAccountRun quietCfg (fun _ => successEnv)
        "t7" "g@h.i").events.filter isBrowserLaunch).length = 1 := by
  obtain ⟨-, -, hev⟩ := @runSuccess1_spec quietCfg (fun _ => successEnv)
    rfl rfl (fun _ => rfl) rfl "t7" "g@h.i"
  refine ⟨?_, ?_⟩ <;> rw [hev] <;>
    simp [List.filter, isPoolAcquire, isBrowserLaunch]

/-- Claim C7 (amended): the Worker Pool itself enforces the bound — in
every pool state reachable from the idle pool by guarded acquisitions
and releases, the number of concurrently executing functions never
exceeds `maxWorkers`. -/
theorem c7_pool_invariant (maxW : Nat) (s : PoolState)
    (h : poolReach maxW ⟨0⟩ s) : s.active ≤ maxW := by
  unfold poolReach at h
  induction h with
  | refl => exact Nat.zero_le maxW
  | tail hab hbc ih =>
    cases hbc with
    | acquire h2 => exact h2
    | release h2 => exact Nat.le_trans (Nat.sub_le _ _) ih

/-- Witness for the amended C7: one acquisition from the idle pool of
size `MAX_WORKERS` is within the bound. -/
theorem c7_pool_invariant_witness :
    poolReach MAX_WORKERS ⟨0⟩ ⟨1⟩ ∧ (⟨1⟩ : PoolState).active ≤ MAX_WORKERS := by
  have hr : poolReach MAX_WORKERS ⟨0⟩ ⟨1⟩ :=
    Relation.ReflTransGen.single (PoolStep.acquire (by decide))
  exact ⟨hr, c7_pool_invariant MAX_WORKERS ⟨1⟩ hr⟩

/-! ### Claim C3 -/

/-- Claim C3 (amended): as long as no subscriber callback throws, the
status assignments of a whole task lifetime are exactly `running`
followed by a single terminal status, so a terminal status is never
overwritten; a callback exception escaping the retry loop, however,
reaches the unconditional catch handler, which overwrites even a
`completed` status. -/
theorem c3_status_monotone {cfg : Config}
    (hq : ∀ j, cfg.callbackThrows j = none)
    (env : Nat → AttemptEnv) (tid email : String) :
    statusSets (createReplitAccountRun cfg env tid email).events =
      [TaskStatus.running, TaskStatus.completed] ∨
    statusSets (createReplitAccountRun cfg env tid email).events =
      [TaskStatus.running, TaskStatus.failed] := by
  obtain ⟨hcs, hcev, -⟩ := createStartLogs_spec cfg (initSt tid email cfg.now)
  obtain ⟨s2, he, hor⟩ := runAutomation_statusSets hq env
    (runSt (createStartLogs cfg) (initSt tid email cfg.now))
  have hrun : createReplitAccountRun cfg env tid email = s2 := by
    unfold createReplitAccountRun
    rw [step_bind hcs, he]
  rw [hrun]
  rcases hor with h | h
  · left
    rw [h, hcev]
    simp [initSt, statusSets]
  · right
    rw [h, hcev]
    simp [initSt, statusSets]

/-- Witness for the amended C3 at a concrete quiet configuration. -/
theorem c3_status_monotone_witness :
    (∀ j, quietCfg.callbackThrows j = none) ∧
    (statusSets (createReplitAccountRun quietCfg (fun _ => successEnv)
        "t3a" "c@d.e").events = [TaskStatus.running, TaskStatus.completed] ∨
     statusSets (createReplitAccountRun quietCfg (fun _ => successEnv)
        "t3a" "c@d.e").events = [TaskStatus.running, TaskStatus.failed]) :=
  ⟨fun _ => rfl,
   c3_status_monotone (fun _ => rfl) (fun _ => successEnv) "t3a" "c@d.e"⟩

set_option maxHeartbeats 1000000 in
/-- Counterexample to the claim that a terminal status is never mutated
again: with a subscriber callback that throws on the completion
notification, the run records `completed` and then the catch handler
of `createReplitAccount` overwrites it with `failed`, so the status
trace is `running, completed, failed` and the task ends `failed`. -/
theorem c3_counterexample :
    statusSets (createReplitAccountRun (throwingCfg 1) (fun _ => successEnv)
        "t3" "c@d.e").events =
      [TaskStatus.running, TaskStatus.completed, TaskStatus.failed] ∧
    (createReplitAccountRun (throwingCfg 1) (fun _ => successEnv)
        "t3" "c@d.e").task.status = .failed := by
  have hdm : (throwingCfg 1).debugMode = true := rfl
  have hsol : (throwingCfg 1).captchaSolverConfigured = false := rfl
  have hc0 : (throwingCfg 1).callbackThrows 0 = none := rfl
  have hc1 : (throwingCfg 1).callbackThrows 1 =
      some "subscriber callback error" := rfl
  have hc2 : (throwingCfg 1).callbackThrows 2 = none := rfl
  have core : ∃ sF,
      createReplitAccountRun (throwingCfg 1) (fun _ => successEnv)
        "t3" "c@d.e" = sF ∧
      statusSets sF.events =
        [TaskStatus.running, TaskStatus.completed, TaskStatus.failed] ∧
      sF.task.status = .failed := by
    simp only [createReplitAccountRun, runAutomation, MAX_RETRIES,
      runAttempts, fatalHandler, initSt,
      createStartLogs_eq, createStartLogs_events, createStartLogs_id,
      createStartLogs_email, createStartLogs_password, createStartLogs_status,
      createStartLogs_notifyCount,
      attempt_success_eq hdm hsol, attempt_success_events hdm hsol,
      attempt_success_id hdm hsol, attempt_success_email hdm hsol,
      attempt_success_password hdm hsol, attempt_success_status hdm hsol,
      attempt_success_notifyCount hdm hsol,
      addDebugLog, addLog, bind_app, pure_app, tryCatch_app, throwErr_app,
      getTask_app, modifyTask_app, emit_app, notifyUpdate_app, setStatus_app,
      resSt, hdm, hc0, hc1, hc2, Nat.lt_irrefl, gt_iff_lt,
      Bool.not_true, Bool.not_false, Bool.false_eq_true, Bool.true_eq_false,
      if_true, if_false, ite_true, ite_false]
    refine ⟨_, rfl, ?_, ?_⟩
    · simp [attempt_success_events hdm hsol, attempt_success_id hdm hsol,
        attempt_success_email hdm hsol, attempt_success_password hdm hsol,
        createStartLogs_events, createStartLogs_id, createStartLogs_email,
        createStartLogs_password, initSt, createReplitAccountTask,
        statusSets, statusOf, List.append_assoc]
    · simp
  obtain ⟨sF, he, h1, h2⟩ := core
  rw [he]
  exact ⟨h1, h2⟩

end Zowa
